import Mathlib

/-!
# The upgrade state machine of `run.go`

A shallow embedding of the three goroutine bodies of `run.go`
(`Run`, `WaitForBlockHeight`, `WaitForUpgrade`).

Every goroutine is a tree of *operations* (`Prog`): each node is one blocking
channel operation, one `select`, or one call into a collaborator package
(`runner`, `types`, `os/exec`), and its continuation consumes the value the
operation yields.  The collaborators are not part of the embedded source, so
their results are supplied from outside, one `Resp` per operation;
`Thread.run` feeds a list of such responses to a goroutine and returns the
log of operations it completed (`Act`).

`log.Printf` / `log.Println` calls are pure diagnostics and are not modelled.
-/

namespace Poktd

/-! ## Data -/

/-- Go `error` values; `Option GoError` is an `error` that may be `nil`. -/
abbrev GoError := String

/-- Identity of a `*exec.Cmd` child-process handle. -/
abbrev Cmd := Nat

/-- The struct `types.UpgradeInfo`, declared outside the embedded source, with
the fields `run.go` reads: `Name` (lines 113, 139) and `Height` (line 104), an
`int64` like `Header.Height`, which it is compared with. -/
structure UpgradeInfo where
  Name : String
  Height : Int
  deriving DecidableEq, Repr

/-- The struct `types.Config`, declared outside the embedded source, as far as
`run.go` uses it: the field `AllowDownload` (line 140) and the method
`UpgradeBin(name)` (line 139), taken as a parameter. -/
structure Config where
  AllowDownload : Bool
  UpgradeBin : String → String

/-- Block header as far as `run.go` looks into it (`tmTypes.Header`). -/
structure Header where
  Height : Int
  deriving DecidableEq, Repr

/-- Payload `tmTypes.EventDataNewBlockHeader`. -/
structure EventDataNewBlockHeader where
  Header : Header
  deriving DecidableEq, Repr

/-- Event envelope delivered on `HeaderChan` and `TxChan`.
`Data` is `some d` exactly when the dynamic type of the Go field `Data` is
`EventDataNewBlockHeader` (so that the type assertion of line 102 succeeds);
`Events` is the attribute map `map[string][]string`. -/
structure ResultEvent where
  Data : Option EventDataNewBlockHeader
  Events : List (String × List String)
  deriving DecidableEq, Repr

/-- Go map indexing `m[key]`: the zero value (a nil slice) when the key is absent. -/
def mapIndex (m : List (String × List String)) (key : String) : List String :=
  (m.lookup key).getD []

/-- Go `strings.Join(elems, sep)`. -/
def stringsJoin (elems : List String) (sep : String) : String :=
  sep.intercalate elems

/-! ## Operations -/

/-- Collaborator calls whose only result is an `error`. -/
inductive Call where
  /-- The call `cmd.Process.Kill()`. -/
  | kill (cmd : Cmd)
  /-- The call `runner.Upgrade(cfg, upgrade)`. -/
  | upgrade (u : UpgradeInfo)
  /-- The call `types.CheckBinary(path)`. -/
  | checkBinary (path : String)
  /-- The call `runner.DownloadBinary(cfg, upgrade)`. -/
  | downloadBinary (u : UpgradeInfo)
  deriving DecidableEq, Repr

/-- A value sent on one of the three unbuffered channels created by `Run`. -/
inductive Msg where
  | errors (e : GoError)
  | upgrades (u : UpgradeInfo)
  | commands (cmd : Cmd)
  deriving DecidableEq, Repr

/-- Statements of `Run` that yield no value. -/
inductive Eff where
  /-- The statement `time.Sleep(time.Second * n)`. -/
  | sleep (seconds : Nat)
  /-- The statement `runner.NewEventListener(cfg)`. -/
  | newEventListener
  /-- The statement `ctx, cancel = context.WithCancel(context.Background())`. -/
  | newContext
  /-- The statement `signal.Notify(signals, ...)`. -/
  | signalNotify
  /-- The statement `cancel()`. -/
  | cancel
  /-- The statement `tmListener = tmListener.Reset(cfg)`. -/
  | resetListener
  /-- The statement `tmListener.Stop()`. -/
  | stopListener
  /-- The call `fanJobs(ctx, cfg, args, cmd, ...)`: starts `WaitForUpgrade` and
  `WaitForBlockHeight`, the latter holding the handle `cmd`. -/
  | fanJobs (cmd : Cmd)
  /-- The statement `go func() { ... }()`: starts the fan-out goroutine of `Run`. -/
  | goFanOut
  deriving DecidableEq, Repr

/-- What the main `select` of `Run` receives. -/
inductive MainEvent where
  | error (e : GoError)
  | signal
  deriving DecidableEq, Repr

/-- Operation trees.  `α` is the type of the value the tree finally yields. -/
inductive Prog (α : Type) where
  /-- the code ran to its end with a value -/
  | ret (a : α)
  /-- run-time panic (failed type assertion) -/
  | panic
  /-- The call `os.Exit(code)`. -/
  | osExit (code : Nat)
  /-- The statement `select { case e := <-listener.HeaderChan: k (some e); case <-ctx.Done(): k none }`. -/
  | selectHeader (k : Option ResultEvent → Prog α)
  /-- The statement `select { case e := <-listener.TxChan: k (some e); case <-ctx.Done(): k none }`. -/
  | selectTx (k : Option ResultEvent → Prog α)
  /-- The statement `select { case err := <-errors: ...; case <-signals: ... }`. -/
  | selectMain (k : MainEvent → Prog α)
  /-- The plain receive `<-upgrades`. -/
  | recvUpgrades (k : UpgradeInfo → Prog α)
  /-- The receive `<-commands`, the only case of its `select`. -/
  | recvCommands (k : Cmd → Prog α)
  /-- The plain send `ch <- v`. -/
  | send (m : Msg) (k : Prog α)
  /-- a collaborator call returning `error` -/
  | call (f : Call) (k : Option GoError → Prog α)
  /-- The call `runner.LaunchProcess(cfg, args, os.Stdout, os.Stderr, os.Stdin)`. -/
  | launch (k : Cmd → Option GoError → Prog α)
  /-- The call `upgrade.SetUpgrade(s)` on a fresh `&types.UpgradeInfo{}`: yields the
  struct as the parser left it, and the parser's error -/
  | setUpgrade (s : String) (k : UpgradeInfo → Option GoError → Prog α)
  /-- The call `types.GetConfigFromEnv()`. -/
  | getConfigFromEnv (k : Config → Option GoError → Prog α)
  /-- a statement of `Run` without result -/
  | eff (e : Eff) (k : Prog α)

/-- What the surroundings supply to the operation a goroutine is at. -/
inductive Resp where
  /-- the event channel of the `select` delivers `e` -/
  | event (e : ResultEvent)
  /-- the `ctx.Done()` case of the `select` is taken -/
  | done
  /-- the main `select` of `Run` receives -/
  | main (e : MainEvent)
  /-- a sender on `upgrades` hands over `u` -/
  | upgradeInfo (u : UpgradeInfo)
  /-- a sender on `commands` hands over `cmd` -/
  | command (cmd : Cmd)
  /-- a receiver takes the pending send, or the statement completes -/
  | ack
  /-- result of a `Call` -/
  | result (err : Option GoError)
  /-- result of `runner.LaunchProcess` -/
  | launched (cmd : Cmd) (err : Option GoError)
  /-- result of `SetUpgrade` -/
  | parsed (u : UpgradeInfo) (err : Option GoError)
  /-- result of `types.GetConfigFromEnv` -/
  | config (cfg : Config) (err : Option GoError)

/-- A completed operation, as recorded in a goroutine's log. -/
inductive Act where
  | recvHeader (e : ResultEvent)
  | recvTx (e : ResultEvent)
  | ctxDone
  | recvMain (e : MainEvent)
  | recvUpgrades (u : UpgradeInfo)
  | recvCommands (cmd : Cmd)
  | send (m : Msg)
  | call (f : Call) (err : Option GoError)
  | launch (cmd : Cmd) (err : Option GoError)
  | setUpgrade (s : String) (u : UpgradeInfo) (err : Option GoError)
  | getConfigFromEnv (err : Option GoError)
  | eff (e : Eff)
  deriving DecidableEq, Repr

/-- One operation: the response is consumed if it fits the operation the tree
is at, and the tree moves to its continuation; otherwise the goroutine stays
where it is (`none`). -/
def Prog.step {α : Type} : Prog α → Resp → Option (Act × Prog α)
  | .selectHeader k, .event e => some (.recvHeader e, k (some e))
  | .selectHeader k, .done => some (.ctxDone, k none)
  | .selectTx k, .event e => some (.recvTx e, k (some e))
  | .selectTx k, .done => some (.ctxDone, k none)
  | .selectMain k, .main e => some (.recvMain e, k e)
  | .recvUpgrades k, .upgradeInfo u => some (.recvUpgrades u, k u)
  | .recvCommands k, .command c => some (.recvCommands c, k c)
  | .send m k, .ack => some (.send m, k)
  | .call f k, .result err => some (.call f err, k err)
  | .launch k, .launched c err => some (.launch c err, k c err)
  | .setUpgrade s k, .parsed u err => some (.setUpgrade s u err, k u err)
  | .getConfigFromEnv k, .config cfg err => some (.getConfigFromEnv err, k cfg err)
  | .eff e k, .ack => some (.eff e, k)
  | _, _ => none

/-- Outcome of one pass through the body of a `for` loop. -/
inductive Ctl (σ : Type) where
  /-- fall through or `continue`: next iteration with loop variables `s` -/
  | loop (s : σ)
  /-- The statement `return`. -/
  | stop

/-- A goroutine running a `for` loop whose variables have type `σ`. -/
inductive Thread (σ : Type) where
  /-- inside an iteration, at the root operation of `p` -/
  | running (p : Prog (Ctl σ))
  /-- the function returned -/
  | returned
  /-- the goroutine panicked -/
  | panicked
  /-- the goroutine called `os.Exit(code)` -/
  | exited (code : Nat)

/-- Control reaches the end of an iteration: re-enter the body, or leave. -/
def Thread.settle {σ : Type} (body : σ → Prog (Ctl σ)) : Prog (Ctl σ) → Thread σ
  | .ret (.loop s) => .running (body s)
  | .ret .stop => .returned
  | .panic => .panicked
  | .osExit code => .exited code
  | p => .running p

/-- One operation of a looping goroutine. -/
def Thread.step {σ : Type} (body : σ → Prog (Ctl σ)) : Thread σ → Resp → Option (Act × Thread σ)
  | .running p, r => (p.step r).map fun (a, q) => (a, Thread.settle body q)
  | _, _ => none

/-- Feed responses to a goroutine, one after the other.  A response that does
not fit the operation the goroutine is blocked in is not consumed and leaves
it blocked there.  Yields the final state and the log of completed operations. -/
def Thread.run {σ : Type} (body : σ → Prog (Ctl σ)) : Thread σ → List Resp → Thread σ × List Act
  | t, [] => (t, [])
  | t, r :: rs =>
    match Thread.step body t r with
    | some (a, t1) => let (t2, log) := Thread.run body t1 rs; (t2, a :: log)
    | none => Thread.run body t rs

/-- The statement `if err != nil { errors <- err }` followed by `k`. -/
def sendIfErr {α : Type} (err : Option GoError) (k : Prog α) : Prog α :=
  match err with
  | some e => .send (.errors e) k
  | none => k

/-! ## `WaitForBlockHeight` (run.go 89-123) -/

/-- Loop variables of `WaitForBlockHeight`: the parameter `cmd`, reassigned at
line 114, and the latch `currentUpgrade` (`nil` is `none`). -/
structure HeightState where
  cmd : Cmd
  currentUpgrade : Option UpgradeInfo
  deriving DecidableEq, Repr

/-- Lines 97-100: `if currentUpgrade == nil { currentUpgrade = <-upgrades }`. -/
def fillLatch {α : Type} (currentUpgrade : Option UpgradeInfo) (k : UpgradeInfo → Prog α) : Prog α :=
  match currentUpgrade with
  | none => .recvUpgrades k
  | some u => k u

/-- One iteration of the `for { select { ... } }` of `WaitForBlockHeight`. -/
def WaitForBlockHeight.body (s : HeightState) : Prog (Ctl HeightState) :=
  .selectHeader fun
    | none => .ret .stop
    | some rawHeaderEvt =>
      fillLatch s.currentUpgrade fun currentUpgrade =>
      let upgrade := currentUpgrade
      match rawHeaderEvt.Data with
      | none => .panic
      | some headerEvt =>
        if upgrade.Height ≠ headerEvt.Header.Height then
          .ret (.loop ⟨s.cmd, some currentUpgrade⟩)
        else
          .call (.kill s.cmd) fun err =>
          sendIfErr err <|
          .call (.upgrade upgrade) fun err =>
          sendIfErr err <|
          .launch fun cmd err =>
          sendIfErr err <|
          .send (.commands cmd) <|
          .ret (.loop ⟨cmd, some currentUpgrade⟩)

/-- The goroutine `go WaitForBlockHeight(ctx, cfg, args, cmd, ...)` at the top
of its loop. -/
def WaitForBlockHeight.start (s : HeightState) : Thread HeightState :=
  .running (WaitForBlockHeight.body s)

/-! ## `WaitForUpgrade` (run.go 126-158) -/

/-- One iteration of the `for { ... select { ... } }` of `WaitForUpgrade`.
The loop has no variables that survive an iteration (`upgrade` is allocated
afresh at line 129). -/
def WaitForUpgrade.body (cfg : Config) (_ : Unit) : Prog (Ctl Unit) :=
  .selectTx fun
    | none => .ret .stop
    | some rawTxEvt =>
      if (mapIndex rawTxEvt.Events "upgrade.action").length = 1 then
        .setUpgrade (stringsJoin (mapIndex rawTxEvt.Events "upgrade.action") "") fun upgrade err =>
        sendIfErr err <|
        .call (.checkBinary (cfg.UpgradeBin upgrade.Name)) fun err =>
        match err with
        | some err =>
          if cfg.AllowDownload then
            .call (.downloadBinary upgrade) fun er =>
            match er with
            | some er =>
              .send (.errors er) <|
              .send (.upgrades upgrade) <|
              .ret (.loop ())
            | none =>
              .send (.upgrades upgrade) <|
              .ret (.loop ())
          else
            .send (.errors err) <|
            .send (.upgrades upgrade) <|
            .ret (.loop ())
        | none =>
          .send (.upgrades upgrade) <|
          .ret (.loop ())
      else
        .ret (.loop ())

/-- The goroutine `go WaitForUpgrade(ctx, cfg, ...)` at the top of its loop. -/
def WaitForUpgrade.start (cfg : Config) : Thread Unit :=
  .running (WaitForUpgrade.body cfg ())

/-! ## `Run` (run.go 18-86) -/

/-- Lines 19-68 of `Run`, up to the main loop.  The value kept for the main
loop is the variable `cmd` of `Run`. -/
def Run.prologue : Prog (Ctl Cmd) :=
  .getConfigFromEnv fun _cfg err =>
  match err with
  | some _ => .osExit 1
  | none =>
    .launch fun cmd err =>
    match err with
    | some _ => .osExit 1
    | none =>
      .eff (.sleep 10) <|
      .eff .newEventListener <|
      .eff .newContext <|
      .eff .signalNotify <|
      .eff .goFanOut <|
      .ret (.loop cmd)

/-- One iteration of the main loop of `Run` (lines 71-85); `cmd` is the value
the variable `cmd` of `Run` has when the signal case runs. -/
def Run.mainBody (cmd : Cmd) : Prog (Ctl Cmd) :=
  .selectMain fun
    | .error _ => .osExit 1
    | .signal =>
      .eff .cancel <|
      .eff .stopListener <|
      .call (.kill cmd) fun err =>
      match err with
      | some _ => .osExit 1
      | none => .osExit 0

/-- The goroutine started at line 52, before its loop (line 53): `cmd` is the
initially launched child. -/
def Run.fanOutPrologue (cmd : Cmd) : Prog (Ctl Cmd) :=
  .eff (.fanJobs cmd) <|
  .ret (.loop cmd)

/-- One iteration of the loop of the goroutine started at line 52 (lines 54-67).
The loop variable is the captured variable `cmd` of `Run`, which line 57
assigns. -/
def Run.fanOutBody (_cmd : Cmd) : Prog (Ctl Cmd) :=
  .recvCommands fun currentCommand =>
  .launch fun cmd err =>
  sendIfErr err <|
  .eff .cancel <|
  .eff (.sleep 5) <|
  .eff .newContext <|
  .eff .resetListener <|
  .eff (.fanJobs currentCommand) <|
  .ret (.loop cmd)

/-! ## Child processes of a log -/

/-- Effect of one completed operation on the set of live children: a
successful `LaunchProcess` starts one, a successful `Kill` ends one. -/
def liveAfter (live : List Cmd) : Act → List Cmd
  | .launch cmd none => cmd :: live
  | .call (.kill cmd) none => live.erase cmd
  | _ => live

/-- Children alive after the operations of `log`, starting with `live`. -/
def liveFrom (live : List Cmd) (log : List Act) : List Cmd :=
  log.foldl liveAfter live

/-- Children alive after the operations of `log`, starting with none. -/
def liveChildren (log : List Act) : List Cmd :=
  liveFrom [] log

/-- Is the operation a successful `LaunchProcess`? -/
def Act.isLaunch : Act → Bool
  | .launch _ none => true
  | _ => false

/-- Number of children launched in `log`. -/
def launchCount (log : List Act) : Nat :=
  log.countP Act.isLaunch

/-- Is the operation a send on `errors`? -/
def Act.isSendErrors : Act → Bool
  | .send (.errors _) => true
  | _ => false

/-- Is the operation a send on `upgrades`? -/
def Act.isSendUpgrades : Act → Bool
  | .send (.upgrades _) => true
  | _ => false

/-- Is the operation a send on `commands`? -/
def Act.isSendCommands : Act → Bool
  | .send (.commands _) => true
  | _ => false

/-- Is the operation a process effect (`Kill`, `runner.Upgrade`, `LaunchProcess`)? -/
def Act.isProcessEffect : Act → Bool
  | .call (.kill _) _ => true
  | .call (.upgrade _) _ => true
  | .launch _ _ => true
  | _ => false

/-! ## Where a goroutine is blocked -/

/-- The operation at the root of a tree, without its continuation. -/
inductive Op where
  | selectHeader
  | selectTx
  | selectMain
  | recvUpgrades
  | recvCommands
  | send (m : Msg)
  | call (f : Call)
  | launch
  | setUpgrade (s : String)
  | getConfigFromEnv
  | eff (e : Eff)
  deriving DecidableEq, Repr

/-- The operation a tree is at (`none` when the code has ended). -/
def Prog.op {α : Type} : Prog α → Option Op
  | .ret _ => none
  | .panic => none
  | .osExit _ => none
  | .selectHeader _ => some .selectHeader
  | .selectTx _ => some .selectTx
  | .selectMain _ => some .selectMain
  | .recvUpgrades _ => some .recvUpgrades
  | .recvCommands _ => some .recvCommands
  | .send m _ => some (.send m)
  | .call f _ => some (.call f)
  | .launch _ => some .launch
  | .setUpgrade s _ => some (.setUpgrade s)
  | .getConfigFromEnv _ => some .getConfigFromEnv
  | .eff e _ => some (.eff e)

/-- The operation a goroutine is at (`none` when it has ended). -/
def Thread.op {σ : Type} : Thread σ → Option Op
  | .running p => p.op
  | _ => none

/-- Has the goroutine returned from its function? -/
def Thread.isReturned {σ : Type} : Thread σ → Bool
  | .returned => true
  | _ => false

/-- What the receiver of a message is handed. -/
def Msg.delivery : Msg → Resp
  | .errors e => .main (.error e)
  | .upgrades u => .upgradeInfo u
  | .commands cmd => .command cmd

/-- Unbuffered channel: a goroutine blocked in a send and a goroutine blocked
in the matching receive move on together; the receiver is handed the value.
Yields, for the sender and for the receiver, the completed operation and the
state after it. -/
def rendezvous {σ τ : Type} (bodyS : σ → Prog (Ctl σ)) (bodyR : τ → Prog (Ctl τ))
    (sender : Thread σ) (receiver : Thread τ) :
    Option ((Act × Thread σ) × (Act × Thread τ)) :=
  match sender.op with
  | some (.send m) =>
    match Thread.step bodyS sender .ack, Thread.step bodyR receiver m.delivery with
    | some s1, some r1 => some (s1, r1)
    | _, _ => none
  | _ => none

/-- Header event of the given height, with an empty attribute map. -/
def headerEvent (height : Int) : ResultEvent :=
  ⟨some ⟨⟨height⟩⟩, []⟩

/-! ## Runs of the supervisor -/

/-- Handle given to the watchers by the last `fanJobs` of a log. -/
def lastFanJobs : List Act → Option Cmd
  | [] => none
  | a :: log =>
    match lastFanJobs log with
    | some cmd => some cmd
    | none =>
      match a with
      | .eff (.fanJobs cmd) => some cmd
      | _ => none

/-- Handle sent by the last send on `commands` of a log. -/
def lastSentCommand : List Act → Option Cmd
  | [] => none
  | a :: log =>
    match lastSentCommand log with
    | some cmd => some cmd
    | none =>
      match a with
      | .send (.commands cmd) => some cmd
      | _ => none

/-- Start of `Run` with every step succeeding: the prologue of `Run` with
`LaunchProcess` returning `c0`, then line 53 of the fan-out goroutine. -/
def startupLog (cfg : Config) (c0 : Cmd) : List Act :=
  (Thread.run Run.mainBody (.running Run.prologue)
      [.config cfg none, .launched c0 none, .ack, .ack, .ack, .ack, .ack]).2
    ++ (Thread.run Run.fanOutBody (.running (Run.fanOutPrologue c0)) [.ack]).2

/-- Activation by the watcher holding `held`: the header of height `u.Height`
arrives while `u` is pending; kill and swap succeed, `LaunchProcess` returns
`child`, and the send on `commands` is taken. -/
def activationLog (held : Cmd) (u : UpgradeInfo) (child : Cmd) : List Act :=
  (Thread.run WaitForBlockHeight.body (WaitForBlockHeight.start ⟨held, some u⟩)
      [.event (headerEvent u.Height), .result none, .result none,
        .launched child none, .ack]).2

/-- The fan-out loop handles `currentCommand` received on `commands`;
`LaunchProcess` returns `child`. -/
def fanOutLog (runCmd currentCommand child : Cmd) : List Act :=
  (Thread.run Run.fanOutBody (.running (Run.fanOutBody runCmd))
      [.command currentCommand, .launched child none, .ack, .ack, .ack, .ack, .ack]).2

/-- One upgrade cycle: the pending upgrade and the handles the two
`LaunchProcess` calls of the cycle return. -/
structure Cycle where
  u : UpgradeInfo
  watcherChild : Cmd
  fanOutChild : Cmd
  deriving DecidableEq, Repr

/-- A run continued by upgrade cycles in which every step succeeds.  Each
cycle is the activation by the `WaitForBlockHeight` of the last `fanJobs`,
followed by the fan-out loop handling the handle that activation sent. -/
def continueRun (log : List Act) (runCmd : Cmd) : List Cycle → List Act
  | [] => log
  | c :: cs =>
    match lastFanJobs log with
    | none => log
    | some held =>
      match lastSentCommand (activationLog held c.u c.watcherChild) with
      | none => log ++ activationLog held c.u c.watcherChild
      | some currentCommand =>
        continueRun
          (log ++ activationLog held c.u c.watcherChild
            ++ fanOutLog runCmd currentCommand c.fanOutChild)
          c.fanOutChild cs

/-- The supervisor's log: start with child `c0`, then the cycles. -/
def supervisorLog (cfg : Config) (c0 : Cmd) (cycles : List Cycle) : List Act :=
  continueRun (startupLog cfg c0) c0 cycles

/-- Largest number of children alive at any point of a log. -/
def maxLive (log : List Act) : Nat :=
  ((List.range (log.length + 1)).map fun n => (liveChildren (log.take n)).length).foldl max 0

/-- Children alive at each call of `runner.Upgrade` in a log, given the
children `live` alive before it. -/
def liveAtSwapsFrom (live : List Cmd) : List Act → List (List Cmd)
  | [] => []
  | .call (.upgrade u) err :: log =>
    live :: liveAtSwapsFrom (liveAfter live (.call (.upgrade u) err)) log
  | a :: log => liveAtSwapsFrom (liveAfter live a) log

/-- Children alive at each call of `runner.Upgrade` in a log. -/
def liveAtSwaps (log : List Act) : List (List Cmd) :=
  liveAtSwapsFrom [] log

/-- Tx event whose only attribute is `upgrade.action` with the values `vs`. -/
def announcement (vs : List String) : ResultEvent :=
  ⟨none, [("upgrade.action", vs)]⟩

/-! ## Closed event channels, shutdown -/

/-- Zero value of the event envelope: `Data` is nil, `Events` is a nil map.
A receive from a closed channel yields it at once. -/
def zeroEvent : ResultEvent :=
  ⟨none, []⟩

/-- The event case of a `select` taken on a closed channel. -/
def closedChannel : Resp :=
  .event zeroEvent

/-- Value of the variable `cmd` of `Run` after a log of `Run` itself or of its
fan-out goroutine, when it was `cmd` before: lines 25 and 57 assign it what
`LaunchProcess` returns. -/
def assignedCmd (cmd : Cmd) : List Act → Cmd
  | [] => cmd
  | .launch c _ :: log => assignedCmd c log
  | _ :: log => assignedCmd cmd log

/-- Value of the variable `cmd` of `Run` after upgrade cycles in which every
step succeeds. -/
def runCmdAfter (runCmd : Cmd) : List Cycle → Cmd
  | [] => runCmd
  | c :: cs =>
    runCmdAfter (assignedCmd runCmd (fanOutLog runCmd c.watcherChild c.fanOutChild)) cs

/-- The main loop of `Run` receives a signal while its variable `cmd` is
`cmd`; `Kill` returns `killErr`. -/
def signalLog (cmd : Cmd) (killErr : Option GoError) : List Act :=
  (Thread.run Run.mainBody (.running (Run.mainBody cmd))
      [.main .signal, .ack, .ack, .result killErr]).2

/-- A run of the supervisor ended by a signal, `Kill` succeeding. -/
def shutdownLog (cfg : Config) (c0 : Cmd) (cycles : List Cycle) : List Act :=
  supervisorLog cfg c0 cycles
    ++ signalLog (runCmdAfter (assignedCmd c0 (startupLog cfg c0)) cycles) none

/-- Handles on which `Kill` is called in a log. -/
def killedHandles : List Act → List Cmd
  | [] => []
  | .call (.kill cmd) _ :: log => cmd :: killedHandles log
  | _ :: log => killedHandles log

/-- Is the operation a receive on `upgrades`? -/
def Act.isRecvUpgrades : Act → Bool
  | .recvUpgrades _ => true
  | _ => false

/-! ## The latch of `WaitForBlockHeight` -/

/-- Every operation the tree can come to satisfies `okOp`, and every value it
can end with satisfies `okRet`. -/
def Prog.All {α : Type} (okOp : Op → Prop) (okRet : α → Prop) : Prog α → Prop
  | .ret a => okRet a
  | .panic => True
  | .osExit _ => True
  | .selectHeader k => okOp .selectHeader ∧ ∀ x, (k x).All okOp okRet
  | .selectTx k => okOp .selectTx ∧ ∀ x, (k x).All okOp okRet
  | .selectMain k => okOp .selectMain ∧ ∀ x, (k x).All okOp okRet
  | .recvUpgrades k => okOp .recvUpgrades ∧ ∀ x, (k x).All okOp okRet
  | .recvCommands k => okOp .recvCommands ∧ ∀ x, (k x).All okOp okRet
  | .send m k => okOp (.send m) ∧ k.All okOp okRet
  | .call f k => okOp (.call f) ∧ ∀ x, (k x).All okOp okRet
  | .launch k => okOp .launch ∧ ∀ x y, (k x y).All okOp okRet
  | .setUpgrade s k => okOp (.setUpgrade s) ∧ ∀ x y, (k x y).All okOp okRet
  | .getConfigFromEnv k => okOp .getConfigFromEnv ∧ ∀ x y, (k x y).All okOp okRet
  | .eff e k => okOp (.eff e) ∧ k.All okOp okRet

/-- Operations of an iteration of `WaitForBlockHeight` after its `select`, once
`u` is in the latch: no receive on `upgrades`, no `select`, no swap for an
upgrade other than `u`. -/
def latchedOp (u : UpgradeInfo) (o : Op) : Prop :=
  o ≠ .recvUpgrades ∧ o ≠ .selectHeader ∧ ∀ u1, o = .call (.upgrade u1) → u1 = u

/-- End of an iteration of `WaitForBlockHeight` with `u` in the latch. -/
def latchedRet (u : UpgradeInfo) : Ctl HeightState → Prop
  | .loop s => s.currentUpgrade = some u
  | .stop => True

/-- States of `WaitForBlockHeight` whose latch holds `u`: at the select with
`currentUpgrade = u`, or inside an iteration that keeps it. -/
def Latched (u : UpgradeInfo) : Thread HeightState → Prop
  | .running p =>
    (∃ cmd, p = WaitForBlockHeight.body ⟨cmd, some u⟩) ∨ p.All (latchedOp u) (latchedRet u)
  | _ => True

/-- States of `WaitForBlockHeight` whose latch is empty: at the select with
`currentUpgrade = nil`, in the receive on `upgrades`, or returned. -/
def Unlatched : Thread HeightState → Prop
  | .running p =>
    (∃ cmd, p = WaitForBlockHeight.body ⟨cmd, none⟩)
      ∨ ∃ k, p = .recvUpgrades k ∧ ∀ u, (k u).All (latchedOp u) (latchedRet u)
  | .returned => True
  | _ => False

/-- The operation is not a swap, or it is the swap for `u`. -/
def Act.swapsOnly (u : UpgradeInfo) : Act → Prop
  | .call (.upgrade u1) _ => u1 = u
  | _ => True

/-! ## Theorems -/

/-- A goroutine to which only responses that do not fit are offered stays
where it is and completes nothing. -/
theorem Thread.run_blocked {σ : Type} (body : σ → Prog (Ctl σ)) (t : Thread σ)
    (rs : List Resp) (h : ∀ r ∈ rs, Thread.step body t r = none) :
    Thread.run body t rs = (t, []) := by
  induction rs with
  | nil => rfl
  | cons r rs ih =>
    have hr : Thread.step body t r = none := h r (List.mem_cons_self r rs)
    have hrs : ∀ q ∈ rs, Thread.step body t q = none :=
      fun q hq => h q (List.mem_cons_of_mem r hq)
    simp [Thread.run, hr, ih hrs]

/-- A goroutine performing an operation continues with the rest of the responses. -/
theorem Thread.run_cons_of_step {σ : Type} (body : σ → Prog (Ctl σ)) (t t1 : Thread σ)
    (r : Resp) (rs : List Resp) (a : Act) (h : Thread.step body t r = some (a, t1)) :
    Thread.run body t (r :: rs)
      = ((Thread.run body t1 rs).1, a :: (Thread.run body t1 rs).2) := by
  simp [Thread.run, h]

/-- The plain receive on `upgrades` consumes nothing but an `UpgradeInfo`. -/
theorem Thread.step_recvUpgrades {σ : Type} (body : σ → Prog (Ctl σ))
    (k : UpgradeInfo → Prog (Ctl σ)) (r : Resp) (h : ∀ u, r ≠ .upgradeInfo u) :
    Thread.step body (.running (.recvUpgrades k)) r = none := by
  cases r <;> simp [Thread.step, Prog.step]
  case upgradeInfo u => exact h u rfl

/-- Cancellation fits none but the two watcher `select`s. -/
theorem Thread.step_done_of_op {σ : Type} (body : σ → Prog (Ctl σ)) (t : Thread σ)
    (h : t.op ≠ some .selectHeader ∧ t.op ≠ some .selectTx) :
    Thread.step body t .done = none := by
  cases t with
  | running p => cases p <;> simp_all [Thread.step, Prog.step, Thread.op, Prog.op]
  | returned => rfl
  | panicked => rfl
  | exited code => rfl


/-- A goroutine blocked in a plain send does not observe cancellation. -/
theorem Thread.run_dones_send {σ : Type} (body : σ → Prog (Ctl σ)) (m : Msg)
    (k : Prog (Ctl σ)) (n : Nat) :
    Thread.run body (.running (.send m k)) (List.replicate n .done)
      = (.running (.send m k), []) := by
  apply Thread.run_blocked
  intro r hr
  rw [List.eq_of_mem_replicate hr]
  rfl

/-- A goroutine blocked in the plain receive on `upgrades` does not observe
cancellation. -/
theorem Thread.run_dones_recvUpgrades {σ : Type} (body : σ → Prog (Ctl σ))
    (k : UpgradeInfo → Prog (Ctl σ)) (n : Nat) :
    Thread.run body (.running (.recvUpgrades k)) (List.replicate n .done)
      = (.running (.recvUpgrades k), []) := by
  apply Thread.run_blocked
  intro r hr
  rw [List.eq_of_mem_replicate hr]
  rfl

/-- With `u` pending, headers of other heights are received and discarded. -/
theorem WaitForBlockHeight.run_other_heights (cmd : Cmd) (u : UpgradeInfo) (hs : List Int)
    (h : ∀ x ∈ hs, x ≠ u.Height) :
    Thread.run WaitForBlockHeight.body (WaitForBlockHeight.start ⟨cmd, some u⟩)
        (hs.map fun x => .event (headerEvent x))
      = (WaitForBlockHeight.start ⟨cmd, some u⟩, hs.map fun x => .recvHeader (headerEvent x)) := by
  induction hs with
  | nil => rfl
  | cons x xs ih =>
    have hx : ¬ u.Height = x := fun e => h x (List.mem_cons_self x xs) e.symm
    have hxs : ∀ y ∈ xs, y ≠ u.Height := fun y hy => h y (List.mem_cons_of_mem x hy)
    have hstep : Thread.step WaitForBlockHeight.body (WaitForBlockHeight.start ⟨cmd, some u⟩)
        (.event (headerEvent x))
        = some (.recvHeader (headerEvent x), WaitForBlockHeight.start ⟨cmd, some u⟩) := by
      simp [Thread.step, Prog.step, Thread.settle, WaitForBlockHeight.start,
        WaitForBlockHeight.body, fillLatch, headerEvent, hx]
    rw [List.map_cons, Thread.run_cons_of_step _ _ _ _ _ _ hstep, ih hxs]
    rfl

/-- C1: while upgrade `u` is pending, a header whose height equals `u.Height`,
with kill, swap and relaunch succeeding, makes `WaitForBlockHeight` perform
exactly: `Kill` on the handle it holds, `runner.Upgrade(cfg, u)`,
`LaunchProcess`, and the send of the new handle on `commands`, in this order;
no operation of the log is a send on `errors`. -/
theorem WaitForBlockHeight_activation_sequence
    (cmd newCmd : Cmd) (u : UpgradeInfo) (headerEvt : EventDataNewBlockHeader)
    (events : List (String × List String))
    (hHeight : headerEvt.Header.Height = u.Height) :
    (Thread.run WaitForBlockHeight.body (WaitForBlockHeight.start ⟨cmd, some u⟩)
        [.event ⟨some headerEvt, events⟩, .result none, .result none,
          .launched newCmd none, .ack]).2
      = [.recvHeader ⟨some headerEvt, events⟩, .call (.kill cmd) none,
          .call (.upgrade u) none, .launch newCmd none, .send (.commands newCmd)]
    ∧ ((Thread.run WaitForBlockHeight.body (WaitForBlockHeight.start ⟨cmd, some u⟩)
        [.event ⟨some headerEvt, events⟩, .result none, .result none,
          .launched newCmd none, .ack]).2.all fun a => !a.isSendErrors) = true := by
  simp [Thread.run, Thread.step, Prog.step, Thread.settle, WaitForBlockHeight.start,
    WaitForBlockHeight.body, fillLatch, sendIfErr, hHeight, Act.isSendErrors]


/-- Witness for C1: pending `v2` at height 50, header of height 50. -/
theorem WaitForBlockHeight_activation_sequence_witness :
    (⟨⟨50⟩⟩ : EventDataNewBlockHeader).Header.Height = (⟨"v2", 50⟩ : UpgradeInfo).Height
    ∧ (Thread.run WaitForBlockHeight.body (WaitForBlockHeight.start ⟨0, some ⟨"v2", 50⟩⟩)
        [.event ⟨some ⟨⟨50⟩⟩, []⟩, .result none, .result none, .launched 1 none, .ack]).2
      = [.recvHeader ⟨some ⟨⟨50⟩⟩, []⟩, .call (.kill 0) none,
          .call (.upgrade ⟨"v2", 50⟩) none, .launch 1 none, .send (.commands 1)] :=
  ⟨by decide,
    (WaitForBlockHeight_activation_sequence 0 1 ⟨"v2", 50⟩ ⟨⟨50⟩⟩ [] (by decide)).1⟩

/-- C2: while upgrade `u` is pending, a header of another height is discarded:
the only completed operation is the receive of the header itself, and the
watcher is back at the top of its loop holding the same handle and the same
pending upgrade. -/
theorem WaitForBlockHeight_other_height_discarded
    (cmd : Cmd) (u : UpgradeInfo) (headerEvt : EventDataNewBlockHeader)
    (events : List (String × List String))
    (hHeight : headerEvt.Header.Height ≠ u.Height) :
    Thread.run WaitForBlockHeight.body (WaitForBlockHeight.start ⟨cmd, some u⟩)
        [.event ⟨some headerEvt, events⟩]
      = (WaitForBlockHeight.start ⟨cmd, some u⟩, [.recvHeader ⟨some headerEvt, events⟩]) := by
  have h : ¬ u.Height = headerEvt.Header.Height := fun h => hHeight h.symm
  simp [Thread.run, Thread.step, Prog.step, Thread.settle, WaitForBlockHeight.start,
    WaitForBlockHeight.body, fillLatch, h]


/-- Witness for C2: pending `v2` at height 50, header of height 49. -/
theorem WaitForBlockHeight_other_height_discarded_witness :
    (⟨⟨49⟩⟩ : EventDataNewBlockHeader).Header.Height ≠ (⟨"v2", 50⟩ : UpgradeInfo).Height
    ∧ Thread.run WaitForBlockHeight.body (WaitForBlockHeight.start ⟨0, some ⟨"v2", 50⟩⟩)
        [.event ⟨some ⟨⟨49⟩⟩, []⟩]
      = (WaitForBlockHeight.start ⟨0, some ⟨"v2", 50⟩⟩, [.recvHeader ⟨some ⟨⟨49⟩⟩, []⟩]) :=
  ⟨by decide,
    WaitForBlockHeight_other_height_discarded 0 ⟨"v2", 50⟩ ⟨⟨49⟩⟩ [] (by decide)⟩

/-- C4: a tx event whose `upgrade.action` attribute has zero values or two or
more values is ignored: the only completed operation is the receive of the
event, and the watcher is back at the top of its loop. -/
theorem WaitForUpgrade_ignores_other_cardinality
    (cfg : Config) (rawTxEvt : ResultEvent)
    (hLen : (mapIndex rawTxEvt.Events "upgrade.action").length = 0
      ∨ 2 ≤ (mapIndex rawTxEvt.Events "upgrade.action").length) :
    Thread.run (WaitForUpgrade.body cfg) (WaitForUpgrade.start cfg) [.event rawTxEvt]
      = (WaitForUpgrade.start cfg, [.recvTx rawTxEvt]) := by
  have h : ¬ (mapIndex rawTxEvt.Events "upgrade.action").length = 1 := by omega
  simp [Thread.run, Thread.step, Prog.step, Thread.settle, WaitForUpgrade.start,
    WaitForUpgrade.body, h]


/-- Witness for C4: an event with two `upgrade.action` values, and an event
with none. -/
theorem WaitForUpgrade_ignores_other_cardinality_witness :
    (2 ≤ (mapIndex (announcement ["a", "b"]).Events "upgrade.action").length
      ∧ Thread.run (WaitForUpgrade.body ⟨false, id⟩) (WaitForUpgrade.start ⟨false, id⟩)
          [.event (announcement ["a", "b"])]
        = (WaitForUpgrade.start ⟨false, id⟩, [.recvTx (announcement ["a", "b"])]))
    ∧ ((mapIndex (⟨none, []⟩ : ResultEvent).Events "upgrade.action").length = 0
      ∧ Thread.run (WaitForUpgrade.body ⟨false, id⟩) (WaitForUpgrade.start ⟨false, id⟩)
          [.event ⟨none, []⟩]
        = (WaitForUpgrade.start ⟨false, id⟩, [.recvTx ⟨none, []⟩])) :=
  ⟨⟨by decide,
      WaitForUpgrade_ignores_other_cardinality ⟨false, id⟩ (announcement ["a", "b"])
        (Or.inr (by decide))⟩,
    ⟨by decide,
      WaitForUpgrade_ignores_other_cardinality ⟨false, id⟩ ⟨none, []⟩ (Or.inl (by decide))⟩⟩

/-- C5: a tx event with exactly one `upgrade.action` value `v` that parses to
`u`, with the binary on disk or downloaded successfully, makes `WaitForUpgrade`
complete exactly one send, of `u` (the struct obtained from `SetUpgrade(v)`),
on `upgrades`, complete no send on `errors`, and return to the top of its loop. -/
theorem WaitForUpgrade_forwards_valid_announcement
    (cfg : Config) (rawTxEvt : ResultEvent) (v : String) (u : UpgradeInfo) (err : GoError)
    (hOne : mapIndex rawTxEvt.Events "upgrade.action" = [v]) :
    Thread.run (WaitForUpgrade.body cfg) (WaitForUpgrade.start cfg)
        [.event rawTxEvt, .parsed u none, .result none, .ack]
      = (WaitForUpgrade.start cfg,
          [.recvTx rawTxEvt, .setUpgrade v u none,
            .call (.checkBinary (cfg.UpgradeBin u.Name)) none, .send (.upgrades u)])
    ∧ (cfg.AllowDownload = true →
        Thread.run (WaitForUpgrade.body cfg) (WaitForUpgrade.start cfg)
            [.event rawTxEvt, .parsed u none, .result (some err), .result none, .ack]
          = (WaitForUpgrade.start cfg,
              [.recvTx rawTxEvt, .setUpgrade v u none,
                .call (.checkBinary (cfg.UpgradeBin u.Name)) (some err),
                .call (.downloadBinary u) none, .send (.upgrades u)])) := by
  constructor
  · simp [Thread.run, Thread.step, Prog.step, Thread.settle, WaitForUpgrade.start,
      WaitForUpgrade.body, sendIfErr, hOne, stringsJoin, String.intercalate,
      String.intercalate.go]
  · intro hAllow
    simp [Thread.run, Thread.step, Prog.step, Thread.settle, WaitForUpgrade.start,
      WaitForUpgrade.body, sendIfErr, hOne, stringsJoin, String.intercalate,
      String.intercalate.go, hAllow]


/-- Witness for C5: the announcement `name=v2,height=50`, binary missing,
download allowed and successful. -/
theorem WaitForUpgrade_forwards_valid_announcement_witness :
    mapIndex (announcement ["name=v2,height=50"]).Events "upgrade.action"
      = ["name=v2,height=50"]
    ∧ (⟨true, id⟩ : Config).AllowDownload = true
    ∧ Thread.run (WaitForUpgrade.body ⟨true, id⟩) (WaitForUpgrade.start ⟨true, id⟩)
        [.event (announcement ["name=v2,height=50"]), .parsed ⟨"v2", 50⟩ none,
          .result (some "not found"), .result none, .ack]
      = (WaitForUpgrade.start ⟨true, id⟩,
          [.recvTx (announcement ["name=v2,height=50"]),
            .setUpgrade "name=v2,height=50" ⟨"v2", 50⟩ none,
            .call (.checkBinary "v2") (some "not found"),
            .call (.downloadBinary ⟨"v2", 50⟩) none, .send (.upgrades ⟨"v2", 50⟩)]) :=
  ⟨by decide, rfl,
    (WaitForUpgrade_forwards_valid_announcement ⟨true, id⟩
      (announcement ["name=v2,height=50"]) "name=v2,height=50" ⟨"v2", 50⟩ "not found"
      (by decide)).2 rfl⟩

/-- The operations of a successful activation. -/
theorem activationLog_eq (held child : Cmd) (u : UpgradeInfo) :
    activationLog held u child
      = [.recvHeader (headerEvent u.Height), .call (.kill held) none,
          .call (.upgrade u) none, .launch child none, .send (.commands child)] := by
  simp [activationLog, headerEvent, Thread.run, Thread.step, Prog.step, Thread.settle,
    WaitForBlockHeight.start, WaitForBlockHeight.body, fillLatch, sendIfErr]

/-- The operations of the fan-out loop handling one handle. -/
theorem fanOutLog_eq (runCmd currentCommand child : Cmd) :
    fanOutLog runCmd currentCommand child
      = [.recvCommands currentCommand, .launch child none, .eff .cancel,
          .eff (.sleep 5), .eff .newContext, .eff .resetListener,
          .eff (.fanJobs currentCommand)] := by
  simp [fanOutLog, Thread.run, Thread.step, Prog.step, Thread.settle, Run.fanOutBody,
    sendIfErr]

/-- The operations of a successful start. -/
theorem startupLog_eq (cfg : Config) (c0 : Cmd) :
    startupLog cfg c0
      = [.getConfigFromEnv none, .launch c0 none, .eff (.sleep 10),
          .eff .newEventListener, .eff .newContext, .eff .signalNotify,
          .eff .goFanOut, .eff (.fanJobs c0)] := by
  simp [startupLog, Thread.run, Thread.step, Prog.step, Thread.settle, Run.prologue,
    Run.fanOutPrologue]

/-- The last `fanJobs` of a concatenation. -/
theorem lastFanJobs_append (l1 l2 : List Act) :
    lastFanJobs (l1 ++ l2)
      = match lastFanJobs l2 with
        | some cmd => some cmd
        | none => lastFanJobs l1 := by
  induction l1 with
  | nil => cases h : lastFanJobs l2 <;> simp [lastFanJobs, h]
  | cons a l1 ih =>
    cases h : lastFanJobs l2 <;> simp [lastFanJobs, ih, h]

/-- Launches of a concatenation. -/
theorem launchCount_append (l1 l2 : List Act) :
    launchCount (l1 ++ l2) = launchCount l1 + launchCount l2 := by
  simp [launchCount, List.countP_append]

/-- One cycle of a run, unfolded. -/
theorem continueRun_cons (log : List Act) (runCmd held : Cmd) (c : Cycle) (cs : List Cycle)
    (h : lastFanJobs log = some held) :
    continueRun log runCmd (c :: cs)
      = continueRun
          (log ++ activationLog held c.u c.watcherChild
            ++ fanOutLog runCmd c.watcherChild c.fanOutChild)
          c.fanOutChild cs := by
  have hsent : lastSentCommand (activationLog held c.u c.watcherChild)
      = some c.watcherChild := by
    rw [activationLog_eq]
    rfl
  simp only [continueRun, h, hsent]

/-- Every cycle of a run adds two launches. -/
theorem continueRun_launchCount (cycles : List Cycle) :
    ∀ (log : List Act) (runCmd : Cmd), (lastFanJobs log).isSome = true →
      launchCount (continueRun log runCmd cycles) = launchCount log + 2 * cycles.length := by
  induction cycles with
  | nil => intro log runCmd _; simp [continueRun]
  | cons c cs ih =>
    intro log runCmd hlog
    obtain ⟨held, hheld⟩ := Option.isSome_iff_exists.mp hlog
    have hnext : (lastFanJobs (log ++ activationLog held c.u c.watcherChild
        ++ fanOutLog runCmd c.watcherChild c.fanOutChild)).isSome = true := by
      rw [lastFanJobs_append, fanOutLog_eq]
      rfl
    have hcount : launchCount (log ++ activationLog held c.u c.watcherChild
        ++ fanOutLog runCmd c.watcherChild c.fanOutChild) = launchCount log + 2 := by
      rw [launchCount_append, launchCount_append, activationLog_eq, fanOutLog_eq]
      rfl
    rw [continueRun_cons log runCmd held c cs hheld, ih _ _ hnext, hcount, List.length_cons]
    omega

/-- The log of a run with one cycle. -/
theorem supervisorLog_one_cycle (cfg : Config) (c0 : Cmd) (c : Cycle) :
    supervisorLog cfg c0 [c]
      = [.getConfigFromEnv none, .launch c0 none, .eff (.sleep 10),
          .eff .newEventListener, .eff .newContext, .eff .signalNotify,
          .eff .goFanOut, .eff (.fanJobs c0),
          .recvHeader (headerEvent c.u.Height), .call (.kill c0) none,
          .call (.upgrade c.u) none, .launch c.watcherChild none,
          .send (.commands c.watcherChild),
          .recvCommands c.watcherChild, .launch c.fanOutChild none, .eff .cancel,
          .eff (.sleep 5), .eff .newContext, .eff .resetListener,
          .eff (.fanJobs c.watcherChild)] := by
  have h : lastFanJobs (startupLog cfg c0) = some c0 := by
    rw [startupLog_eq]
    rfl
  rw [supervisorLog, continueRun_cons _ c0 c0 c [] h, continueRun, startupLog_eq,
    activationLog_eq, fanOutLog_eq]
  rfl

/-- C3 (evaluation of the code): in a run of the supervisor in which every
step succeeds, each upgrade cycle launches two children, one at line 114 of
`WaitForBlockHeight` and one at line 57 of the fan-out loop, and kills one:
after `n` cycles `2 * n + 1` children have been launched, and after the
first cycle two children are alive.  With the two upgrades v2 at height 50
and v3 at height 100 (handles 0 to 4 in launch order) five children are
launched, three are alive at the end, and child 2 is alive while
`runner.Upgrade` swaps the binary for v3. -/
theorem supervisor_cycle_launches_two_children
    (cfg : Config) (c0 : Cmd) (cycles : List Cycle) (c : Cycle) :
    launchCount (supervisorLog cfg c0 cycles) = 2 * cycles.length + 1
    ∧ liveChildren (supervisorLog cfg c0 [c]) = [c.fanOutChild, c.watcherChild]
    ∧ maxLive (supervisorLog cfg c0 [c]) = 2
    ∧ launchCount (supervisorLog cfg 0 [⟨⟨"v2", 50⟩, 1, 2⟩, ⟨⟨"v3", 100⟩, 3, 4⟩]) = 5
    ∧ liveChildren (supervisorLog cfg 0 [⟨⟨"v2", 50⟩, 1, 2⟩, ⟨⟨"v3", 100⟩, 3, 4⟩])
        = [4, 3, 2]
    ∧ liveAtSwaps (supervisorLog cfg 0 [⟨⟨"v2", 50⟩, 1, 2⟩, ⟨⟨"v3", 100⟩, 3, 4⟩])
        = [[], [2]] := by
  refine ⟨?_, ?_, ?_, ?_, ?_, ?_⟩
  · have h : (lastFanJobs (startupLog cfg c0)).isSome = true := by
      rw [startupLog_eq]
      rfl
    have h0 : launchCount (startupLog cfg c0) = 1 := by
      rw [startupLog_eq]
      rfl
    rw [supervisorLog, continueRun_launchCount cycles _ _ h, h0]
    omega
  · rw [supervisorLog_one_cycle]
    simp [liveChildren, liveFrom, liveAfter]
  · rw [supervisorLog_one_cycle]
    simp [maxLive, liveChildren, liveFrom, liveAfter, List.range_succ]
  · rfl
  · rfl
  · rfl

/-- C6 (evaluation of the code): in each of the three failing cases of an
announcement with the single value `v` (the parser fails; the binary is
missing and `AllowDownload` is false; the binary is missing, `AllowDownload`
is true and the download fails), once the send on `errors` has been taken
`WaitForUpgrade` goes on to line 152 and sends the upgrade on `upgrades`. -/
theorem WaitForUpgrade_forwards_after_error
    (cfg : Config) (rawTxEvt : ResultEvent) (v : String) (u : UpgradeInfo)
    (parseErr checkErr downloadErr : GoError)
    (hOne : mapIndex rawTxEvt.Events "upgrade.action" = [v]) :
    Thread.run (WaitForUpgrade.body cfg) (WaitForUpgrade.start cfg)
        [.event rawTxEvt, .parsed u (some parseErr), .ack, .result none, .ack]
      = (WaitForUpgrade.start cfg,
          [.recvTx rawTxEvt, .setUpgrade v u (some parseErr), .send (.errors parseErr),
            .call (.checkBinary (cfg.UpgradeBin u.Name)) none, .send (.upgrades u)])
    ∧ (cfg.AllowDownload = false →
        Thread.run (WaitForUpgrade.body cfg) (WaitForUpgrade.start cfg)
            [.event rawTxEvt, .parsed u none, .result (some checkErr), .ack, .ack]
          = (WaitForUpgrade.start cfg,
              [.recvTx rawTxEvt, .setUpgrade v u none,
                .call (.checkBinary (cfg.UpgradeBin u.Name)) (some checkErr),
                .send (.errors checkErr), .send (.upgrades u)]))
    ∧ (cfg.AllowDownload = true →
        Thread.run (WaitForUpgrade.body cfg) (WaitForUpgrade.start cfg)
            [.event rawTxEvt, .parsed u none, .result (some checkErr),
              .result (some downloadErr), .ack, .ack]
          = (WaitForUpgrade.start cfg,
              [.recvTx rawTxEvt, .setUpgrade v u none,
                .call (.checkBinary (cfg.UpgradeBin u.Name)) (some checkErr),
                .call (.downloadBinary u) (some downloadErr),
                .send (.errors downloadErr), .send (.upgrades u)])) := by
  refine ⟨?_, ?_, ?_⟩
  · simp [Thread.run, Thread.step, Prog.step, Thread.settle, WaitForUpgrade.start,
      WaitForUpgrade.body, sendIfErr, hOne, stringsJoin, String.intercalate,
      String.intercalate.go]
  · intro hAllow
    simp [Thread.run, Thread.step, Prog.step, Thread.settle, WaitForUpgrade.start,
      WaitForUpgrade.body, sendIfErr, hOne, stringsJoin, String.intercalate,
      String.intercalate.go, hAllow]
  · intro hAllow
    simp [Thread.run, Thread.step, Prog.step, Thread.settle, WaitForUpgrade.start,
      WaitForUpgrade.body, sendIfErr, hOne, stringsJoin, String.intercalate,
      String.intercalate.go, hAllow]


/-- Witness for C6: the announcement `name=v3,height=100` with no binary on
disk, download disabled, and with download enabled and failing. -/
theorem WaitForUpgrade_forwards_after_error_witness :
    mapIndex (announcement ["name=v3,height=100"]).Events "upgrade.action"
      = ["name=v3,height=100"]
    ∧ Thread.run (WaitForUpgrade.body ⟨false, id⟩) (WaitForUpgrade.start ⟨false, id⟩)
        [.event (announcement ["name=v3,height=100"]), .parsed ⟨"v3", 100⟩ none,
          .result (some "not found"), .ack, .ack]
      = (WaitForUpgrade.start ⟨false, id⟩,
          [.recvTx (announcement ["name=v3,height=100"]),
            .setUpgrade "name=v3,height=100" ⟨"v3", 100⟩ none,
            .call (.checkBinary "v3") (some "not found"),
            .send (.errors "not found"), .send (.upgrades ⟨"v3", 100⟩)])
    ∧ Thread.run (WaitForUpgrade.body ⟨true, id⟩) (WaitForUpgrade.start ⟨true, id⟩)
        [.event (announcement ["name=v3,height=100"]), .parsed ⟨"v3", 100⟩ none,
          .result (some "not found"), .result (some "network"), .ack, .ack]
      = (WaitForUpgrade.start ⟨true, id⟩,
          [.recvTx (announcement ["name=v3,height=100"]),
            .setUpgrade "name=v3,height=100" ⟨"v3", 100⟩ none,
            .call (.checkBinary "v3") (some "not found"),
            .call (.downloadBinary ⟨"v3", 100⟩) (some "network"),
            .send (.errors "network"), .send (.upgrades ⟨"v3", 100⟩)]) :=
  ⟨by decide,
    (WaitForUpgrade_forwards_after_error ⟨false, id⟩ (announcement ["name=v3,height=100"])
      "name=v3,height=100" ⟨"v3", 100⟩ "bad value" "not found" "network"
      (by decide)).2.1 rfl,
    (WaitForUpgrade_forwards_after_error ⟨true, id⟩ (announcement ["name=v3,height=100"])
      "name=v3,height=100" ⟨"v3", 100⟩ "bad value" "not found" "network"
      (by decide)).2.2 rfl⟩

/-- C7: every failing step of an announcement with the single value `v` is
reported on `errors` with its own error: the parser's error when `SetUpgrade`
fails; the error of `CheckBinary` when the binary is missing and
`AllowDownload` is false; the error of `DownloadBinary`, and no other, when
the binary is missing, `AllowDownload` is true and the download fails.  In
each case the send on `errors` is the operation that follows the failing
step (for the download, the only send on `errors` of the log). -/
theorem WaitForUpgrade_reports_own_error
    (cfg : Config) (rawTxEvt : ResultEvent) (v : String) (u : UpgradeInfo)
    (parseErr checkErr downloadErr : GoError)
    (hOne : mapIndex rawTxEvt.Events "upgrade.action" = [v]) :
    (Thread.run (WaitForUpgrade.body cfg) (WaitForUpgrade.start cfg)
        [.event rawTxEvt, .parsed u (some parseErr), .ack]).2
      = [.recvTx rawTxEvt, .setUpgrade v u (some parseErr), .send (.errors parseErr)]
    ∧ (cfg.AllowDownload = false →
        (Thread.run (WaitForUpgrade.body cfg) (WaitForUpgrade.start cfg)
            [.event rawTxEvt, .parsed u none, .result (some checkErr), .ack]).2
          = [.recvTx rawTxEvt, .setUpgrade v u none,
              .call (.checkBinary (cfg.UpgradeBin u.Name)) (some checkErr),
              .send (.errors checkErr)])
    ∧ (cfg.AllowDownload = true →
        (Thread.run (WaitForUpgrade.body cfg) (WaitForUpgrade.start cfg)
            [.event rawTxEvt, .parsed u none, .result (some checkErr),
              .result (some downloadErr), .ack]).2
          = [.recvTx rawTxEvt, .setUpgrade v u none,
              .call (.checkBinary (cfg.UpgradeBin u.Name)) (some checkErr),
              .call (.downloadBinary u) (some downloadErr),
              .send (.errors downloadErr)]) := by
  refine ⟨?_, ?_, ?_⟩
  · simp [Thread.run, Thread.step, Prog.step, Thread.settle, WaitForUpgrade.start,
      WaitForUpgrade.body, sendIfErr, hOne, stringsJoin, String.intercalate,
      String.intercalate.go]
  · intro hAllow
    simp [Thread.run, Thread.step, Prog.step, Thread.settle, WaitForUpgrade.start,
      WaitForUpgrade.body, sendIfErr, hOne, stringsJoin, String.intercalate,
      String.intercalate.go, hAllow]
  · intro hAllow
    simp [Thread.run, Thread.step, Prog.step, Thread.settle, WaitForUpgrade.start,
      WaitForUpgrade.body, sendIfErr, hOne, stringsJoin, String.intercalate,
      String.intercalate.go, hAllow]


/-- Witness for C7: the announcement `name=v3,height=100` with no binary on
disk, download disabled, and with download enabled and failing. -/
theorem WaitForUpgrade_reports_own_error_witness :
    mapIndex (announcement ["name=v3,height=100"]).Events "upgrade.action"
      = ["name=v3,height=100"]
    ∧ (Thread.run (WaitForUpgrade.body ⟨false, id⟩) (WaitForUpgrade.start ⟨false, id⟩)
        [.event (announcement ["name=v3,height=100"]), .parsed ⟨"v3", 100⟩ none,
          .result (some "not found"), .ack]).2
      = [.recvTx (announcement ["name=v3,height=100"]),
          .setUpgrade "name=v3,height=100" ⟨"v3", 100⟩ none,
          .call (.checkBinary "v3") (some "not found"), .send (.errors "not found")]
    ∧ (Thread.run (WaitForUpgrade.body ⟨true, id⟩) (WaitForUpgrade.start ⟨true, id⟩)
        [.event (announcement ["name=v3,height=100"]), .parsed ⟨"v3", 100⟩ none,
          .result (some "not found"), .result (some "network"), .ack]).2
      = [.recvTx (announcement ["name=v3,height=100"]),
          .setUpgrade "name=v3,height=100" ⟨"v3", 100⟩ none,
          .call (.checkBinary "v3") (some "not found"),
          .call (.downloadBinary ⟨"v3", 100⟩) (some "network"),
          .send (.errors "network")] :=
  ⟨by decide,
    (WaitForUpgrade_reports_own_error ⟨false, id⟩ (announcement ["name=v3,height=100"])
      "name=v3,height=100" ⟨"v3", 100⟩ "bad value" "not found" "network"
      (by decide)).2.1 rfl,
    (WaitForUpgrade_reports_own_error ⟨true, id⟩ (announcement ["name=v3,height=100"])
      "name=v3,height=100" ⟨"v3", 100⟩ "bad value" "not found" "network"
      (by decide)).2.2 rfl⟩

/-- C9: a header received while the latch is empty leaves `WaitForBlockHeight`
in the plain receive on `upgrades`: whatever is offered to it other than an
`UpgradeInfo` (further headers, cancellation, results), the only operation it
completes is the receive of that header, and it is still at `<-upgrades`. -/
theorem WaitForBlockHeight_blocks_until_upgrade
    (cmd : Cmd) (rawHeaderEvt : ResultEvent) (rs : List Resp)
    (hrs : ∀ r ∈ rs, ∀ u, r ≠ .upgradeInfo u) :
    (Thread.run WaitForBlockHeight.body (WaitForBlockHeight.start ⟨cmd, none⟩)
        (.event rawHeaderEvt :: rs)).2 = [.recvHeader rawHeaderEvt]
    ∧ (Thread.run WaitForBlockHeight.body (WaitForBlockHeight.start ⟨cmd, none⟩)
        (.event rawHeaderEvt :: rs)).1.op = some .recvUpgrades := by
  have hstep : Thread.step WaitForBlockHeight.body (WaitForBlockHeight.start ⟨cmd, none⟩)
      (.event rawHeaderEvt)
      = some (.recvHeader rawHeaderEvt,
          Thread.running (fillLatch none fun currentUpgrade =>
            match rawHeaderEvt.Data with
            | none => .panic
            | some headerEvt =>
              if currentUpgrade.Height ≠ headerEvt.Header.Height then
                .ret (.loop ⟨cmd, some currentUpgrade⟩)
              else
                .call (.kill cmd) fun err =>
                sendIfErr err <|
                .call (.upgrade currentUpgrade) fun err =>
                sendIfErr err <|
                .launch fun cmd err =>
                sendIfErr err <|
                .send (.commands cmd) <|
                .ret (.loop ⟨cmd, some currentUpgrade⟩))) := by
    simp [Thread.step, Prog.step, Thread.settle, WaitForBlockHeight.start,
      WaitForBlockHeight.body, fillLatch]
  rw [Thread.run_cons_of_step _ _ _ _ _ _ hstep, Thread.run_blocked]
  · simp [fillLatch, Thread.op, Prog.op]
  · intro r hr
    exact Thread.step_recvUpgrades _ _ r (hrs r hr)


/-- Witness for C9: after the header of height 48, the header of height 49, a
cancellation and a stray acknowledgement are offered. -/
theorem WaitForBlockHeight_blocks_until_upgrade_witness :
    (∀ r ∈ [Resp.event (headerEvent 49), Resp.done, Resp.ack], ∀ u, r ≠ .upgradeInfo u)
    ∧ (Thread.run WaitForBlockHeight.body (WaitForBlockHeight.start ⟨0, none⟩)
        [.event (headerEvent 48), .event (headerEvent 49), .done, .ack]).2
      = [.recvHeader (headerEvent 48)]
    ∧ (Thread.run WaitForBlockHeight.body (WaitForBlockHeight.start ⟨0, none⟩)
        [.event (headerEvent 48), .event (headerEvent 49), .done, .ack]).1.op
      = some .recvUpgrades :=
  ⟨by simp,
    WaitForBlockHeight_blocks_until_upgrade 0 (headerEvent 48)
      [.event (headerEvent 49), .done, .ack] (by simp)⟩

/-- C8 (counterexample): current height 60, announcement of height 40 with its
binary on disk.  `WaitForUpgrade` forwards it on `upgrades` and sends nothing
on `errors`; `WaitForBlockHeight`, holding the header of height 60, latches
it, and the headers 61 and 62 leave it pending, with no error. -/
theorem past_height_announcement_not_reported :
    Thread.run (WaitForUpgrade.body ⟨false, id⟩) (WaitForUpgrade.start ⟨false, id⟩)
        [.event ⟨none, [("upgrade.action", ["name=v2,height=40"])]⟩,
          .parsed ⟨"v2", 40⟩ none, .result none, .ack]
      = (WaitForUpgrade.start ⟨false, id⟩,
          [.recvTx ⟨none, [("upgrade.action", ["name=v2,height=40"])]⟩,
            .setUpgrade "name=v2,height=40" ⟨"v2", 40⟩ none,
            .call (.checkBinary "v2") none, .send (.upgrades ⟨"v2", 40⟩)])
    ∧ Thread.run WaitForBlockHeight.body (WaitForBlockHeight.start ⟨0, none⟩)
        [.event (headerEvent 60), .upgradeInfo ⟨"v2", 40⟩, .event (headerEvent 61),
          .event (headerEvent 62)]
      = (WaitForBlockHeight.start ⟨0, some ⟨"v2", 40⟩⟩,
          [.recvHeader (headerEvent 60), .recvUpgrades ⟨"v2", 40⟩,
            .recvHeader (headerEvent 61), .recvHeader (headerEvent 62)]) := by
  constructor <;> rfl

/-- C8 (amended): an announcement is forwarded whatever its height: when its
value parses and its binary is on disk `WaitForUpgrade` sends it on `upgrades`
and nothing on `errors`.  When its height is lower than that of the header
`WaitForBlockHeight` holds, the watcher latches it and receives and discards
every later header (heights not below the held one) with no other operation:
the upgrade stays pending and no error is sent. -/
theorem past_height_announcement_held_pending
    (cfg : Config) (rawTxEvt : ResultEvent) (v : String) (u : UpgradeInfo) (cmd : Cmd)
    (current : Int) (later : List Int)
    (hOne : mapIndex rawTxEvt.Events "upgrade.action" = [v])
    (hPast : u.Height < current) (hLater : ∀ x ∈ later, current ≤ x) :
    Thread.run (WaitForUpgrade.body cfg) (WaitForUpgrade.start cfg)
        [.event rawTxEvt, .parsed u none, .result none, .ack]
      = (WaitForUpgrade.start cfg,
          [.recvTx rawTxEvt, .setUpgrade v u none,
            .call (.checkBinary (cfg.UpgradeBin u.Name)) none, .send (.upgrades u)])
    ∧ Thread.run WaitForBlockHeight.body (WaitForBlockHeight.start ⟨cmd, none⟩)
        (.event (headerEvent current) :: .upgradeInfo u
          :: later.map fun x => .event (headerEvent x))
      = (WaitForBlockHeight.start ⟨cmd, some u⟩,
          .recvHeader (headerEvent current) :: .recvUpgrades u
            :: later.map fun x => .recvHeader (headerEvent x)) := by
  constructor
  · simp [Thread.run, Thread.step, Prog.step, Thread.settle, WaitForUpgrade.start,
      WaitForUpgrade.body, sendIfErr, hOne, stringsJoin, String.intercalate,
      String.intercalate.go]
  · have hne : ¬ u.Height = current := by omega
    have hs : ∀ x ∈ later, x ≠ u.Height := fun x hx => by
      have := hLater x hx
      omega
    have h1 : Thread.step WaitForBlockHeight.body (WaitForBlockHeight.start ⟨cmd, none⟩)
        (.event (headerEvent current))
        = some (.recvHeader (headerEvent current),
            Thread.running (.recvUpgrades fun currentUpgrade =>
              if currentUpgrade.Height ≠ current then
                .ret (.loop ⟨cmd, some currentUpgrade⟩)
              else
                .call (.kill cmd) fun err =>
                sendIfErr err <|
                .call (.upgrade currentUpgrade) fun err =>
                sendIfErr err <|
                .launch fun cmd err =>
                sendIfErr err <|
                .send (.commands cmd) <|
                .ret (.loop ⟨cmd, some currentUpgrade⟩))) := by
      simp [Thread.step, Prog.step, Thread.settle, WaitForBlockHeight.start,
        WaitForBlockHeight.body, fillLatch, headerEvent]
    have h2 : Thread.step WaitForBlockHeight.body
        (Thread.running (.recvUpgrades fun currentUpgrade =>
              if currentUpgrade.Height ≠ current then
                .ret (.loop ⟨cmd, some currentUpgrade⟩)
              else
                .call (.kill cmd) fun err =>
                sendIfErr err <|
                .call (.upgrade currentUpgrade) fun err =>
                sendIfErr err <|
                .launch fun cmd err =>
                sendIfErr err <|
                .send (.commands cmd) <|
                .ret (.loop ⟨cmd, some currentUpgrade⟩)))
        (.upgradeInfo u)
        = some (.recvUpgrades u, WaitForBlockHeight.start ⟨cmd, some u⟩) := by
      simp [Thread.step, Prog.step, Thread.settle, WaitForBlockHeight.start, hne]
    rw [Thread.run_cons_of_step _ _ _ _ _ _ h1, Thread.run_cons_of_step _ _ _ _ _ _ h2,
      WaitForBlockHeight.run_other_heights cmd u later hs]


/-- Witness for C8 (amended): height 40 announced at height 60, then the
headers 61 and 62. -/
theorem past_height_announcement_held_pending_witness :
    mapIndex (announcement ["name=v2,height=40"]).Events "upgrade.action"
      = ["name=v2,height=40"]
    ∧ (⟨"v2", 40⟩ : UpgradeInfo).Height < 60
    ∧ (∀ x ∈ [(61 : Int), 62], 60 ≤ x)
    ∧ Thread.run WaitForBlockHeight.body (WaitForBlockHeight.start ⟨0, none⟩)
        (.event (headerEvent 60) :: .upgradeInfo ⟨"v2", 40⟩
          :: [(61 : Int), 62].map fun x => .event (headerEvent x))
      = (WaitForBlockHeight.start ⟨0, some ⟨"v2", 40⟩⟩,
          .recvHeader (headerEvent 60) :: .recvUpgrades ⟨"v2", 40⟩
            :: [(61 : Int), 62].map fun x => .recvHeader (headerEvent x)) :=
  ⟨by decide, by decide, by decide,
    (past_height_announcement_held_pending ⟨false, id⟩ (announcement ["name=v2,height=40"])
      "name=v2,height=40" ⟨"v2", 40⟩ 0 60 [61, 62] (by decide) (by decide) (by decide)).2⟩

/-- C10 (counterexample): after a header of height 60 with the latch empty,
`WaitForBlockHeight` is in the plain receive `<-upgrades`; cancellation is
not observed there, the watcher has not returned.  A `WaitForUpgrade` of the
prior generation blocked in `upgrades <- u` is not released by cancellation
either, and its `u` is handed to the `WaitForBlockHeight` of the next
generation (holding the new handle 1) when that one receives on `upgrades`. -/
theorem cancellation_not_observed_outside_select :
    (Thread.run WaitForBlockHeight.body (WaitForBlockHeight.start ⟨0, none⟩)
        [.event (headerEvent 60), .done, .done]).1.op = some .recvUpgrades
    ∧ (Thread.run WaitForBlockHeight.body (WaitForBlockHeight.start ⟨0, none⟩)
        [.event (headerEvent 60), .done, .done]).1.isReturned = false
    ∧ (Thread.run (WaitForUpgrade.body ⟨false, id⟩) (WaitForUpgrade.start ⟨false, id⟩)
        [.event ⟨none, [("upgrade.action", ["name=v2,height=50"])]⟩,
          .parsed ⟨"v2", 50⟩ none, .result none, .done, .done]).1.op
        = some (.send (.upgrades ⟨"v2", 50⟩))
    ∧ (rendezvous (WaitForUpgrade.body ⟨false, id⟩) WaitForBlockHeight.body
        (Thread.run (WaitForUpgrade.body ⟨false, id⟩) (WaitForUpgrade.start ⟨false, id⟩)
          [.event ⟨none, [("upgrade.action", ["name=v2,height=50"])]⟩,
            .parsed ⟨"v2", 50⟩ none, .result none, .done, .done]).1
        (Thread.run WaitForBlockHeight.body (WaitForBlockHeight.start ⟨1, none⟩)
          [.event (headerEvent 48)]).1).map (fun x => x.2.1)
        = some (.recvUpgrades ⟨"v2", 50⟩) := by
  refine ⟨?_, ?_, ?_, ?_⟩ <;> rfl

/-- C10 (amended): cancellation pre-empts the two `select`s and nothing else.
At its `select` each watcher returns when the `ctx.Done()` case is taken.
Blocked in the plain receive `<-upgrades` (latch empty, a header received),
in the send on `commands` (after an activation), in a send on `errors`
(here after a failed kill) or in the send on `upgrades` (after a valid
announcement), a watcher is still in that same operation after any number of
cancellations; and the pending send on `upgrades` is handed to a
`WaitForBlockHeight` of the next generation that receives on `upgrades`. -/
theorem cancellation_preempts_only_selects
    (cfg : Config) (s : HeightState) (cmd nextCmd newCmd : Cmd)
    (rawHeaderEvt nextHeaderEvt rawTxEvt : ResultEvent) (v : String) (u : UpgradeInfo)
    (killErr : GoError) (n : Nat)
    (hOne : mapIndex rawTxEvt.Events "upgrade.action" = [v]) :
    Thread.step WaitForBlockHeight.body (WaitForBlockHeight.start s) .done
      = some (.ctxDone, .returned)
    ∧ Thread.step (WaitForUpgrade.body cfg) (WaitForUpgrade.start cfg) .done
      = some (.ctxDone, .returned)
    ∧ (Thread.run WaitForBlockHeight.body (WaitForBlockHeight.start ⟨cmd, none⟩)
        (.event rawHeaderEvt :: List.replicate n .done)).1.op = some .recvUpgrades
    ∧ (Thread.run WaitForBlockHeight.body (WaitForBlockHeight.start ⟨cmd, some u⟩)
        (.event (headerEvent u.Height) :: .result none :: .result none
          :: .launched newCmd none :: List.replicate n .done)).1.op
        = some (.send (.commands newCmd))
    ∧ (Thread.run WaitForBlockHeight.body (WaitForBlockHeight.start ⟨cmd, some u⟩)
        (.event (headerEvent u.Height) :: .result (some killErr)
          :: List.replicate n .done)).1.op
        = some (.send (.errors killErr))
    ∧ (Thread.run (WaitForUpgrade.body cfg) (WaitForUpgrade.start cfg)
        (.event rawTxEvt :: .parsed u none :: .result none
          :: List.replicate n .done)).1.op
        = some (.send (.upgrades u))
    ∧ (rendezvous (WaitForUpgrade.body cfg) WaitForBlockHeight.body
        (Thread.run (WaitForUpgrade.body cfg) (WaitForUpgrade.start cfg)
          (.event rawTxEvt :: .parsed u none :: .result none
            :: List.replicate n .done)).1
        (Thread.run WaitForBlockHeight.body (WaitForBlockHeight.start ⟨nextCmd, none⟩)
          [.event nextHeaderEvt]).1).map (fun x => x.2.1)
        = some (.recvUpgrades u) := by
  refine ⟨?_, ?_, ?_, ?_, ?_, ?_, ?_⟩
  · rfl
  · rfl
  · simp [Thread.run, Thread.step, Prog.step, Thread.settle, WaitForBlockHeight.start,
      WaitForBlockHeight.body, fillLatch, Thread.run_dones_recvUpgrades, Thread.op, Prog.op]
  · simp [Thread.run, Thread.step, Prog.step, Thread.settle, WaitForBlockHeight.start,
      WaitForBlockHeight.body, fillLatch, sendIfErr, headerEvent, Thread.run_dones_send,
      Thread.op, Prog.op]
  · simp [Thread.run, Thread.step, Prog.step, Thread.settle, WaitForBlockHeight.start,
      WaitForBlockHeight.body, fillLatch, sendIfErr, headerEvent, Thread.run_dones_send,
      Thread.op, Prog.op]
  · simp [Thread.run, Thread.step, Prog.step, Thread.settle, WaitForUpgrade.start,
      WaitForUpgrade.body, sendIfErr, hOne, Thread.run_dones_send, Thread.op, Prog.op]
  · simp [Thread.run, Thread.step, Prog.step, Thread.settle, WaitForUpgrade.start,
      WaitForUpgrade.body, WaitForBlockHeight.start, WaitForBlockHeight.body, fillLatch,
      sendIfErr, hOne, Thread.run_dones_send, Thread.op, Prog.op, rendezvous,
      Msg.delivery]


/-- Witness for C10 (amended): the announcement `name=v2,height=50` pending in
the send on `upgrades` through three cancellations. -/
theorem cancellation_preempts_only_selects_witness :
    mapIndex (announcement ["name=v2,height=50"]).Events "upgrade.action"
      = ["name=v2,height=50"]
    ∧ (Thread.run (WaitForUpgrade.body ⟨false, id⟩) (WaitForUpgrade.start ⟨false, id⟩)
        (.event (announcement ["name=v2,height=50"]) :: .parsed ⟨"v2", 50⟩ none
          :: .result none :: List.replicate 3 .done)).1.op
      = some (.send (.upgrades ⟨"v2", 50⟩)) :=
  ⟨by decide,
    (cancellation_preempts_only_selects ⟨false, id⟩ ⟨0, none⟩ 0 1 2 (headerEvent 48)
      (headerEvent 48) (announcement ["name=v2,height=50"]) "name=v2,height=50"
      ⟨"v2", 50⟩ "kill failed" 3 (by decide)).2.2.2.2.2.1⟩

/-- C18: a header received while the latch is empty is the one compared with
the upgrade `u` received next.  When the heights are equal, kill, swap and
relaunch follow at once, no further header being received; otherwise the
header is discarded, the watcher is at its select holding `u`, and the next
header is the one compared with `u`. -/
theorem WaitForBlockHeight_compares_held_header
    (cmd newCmd : Cmd) (u : UpgradeInfo) (headerEvt nextEvt : EventDataNewBlockHeader)
    (events nextEvents : List (String × List String)) :
    (headerEvt.Header.Height = u.Height →
      Thread.run WaitForBlockHeight.body (WaitForBlockHeight.start ⟨cmd, none⟩)
          [.event ⟨some headerEvt, events⟩, .upgradeInfo u, .result none, .result none,
            .launched newCmd none, .ack]
        = (WaitForBlockHeight.start ⟨newCmd, some u⟩,
            [.recvHeader ⟨some headerEvt, events⟩, .recvUpgrades u, .call (.kill cmd) none,
              .call (.upgrade u) none, .launch newCmd none, .send (.commands newCmd)]))
    ∧ (headerEvt.Header.Height ≠ u.Height →
      Thread.run WaitForBlockHeight.body (WaitForBlockHeight.start ⟨cmd, none⟩)
          [.event ⟨some headerEvt, events⟩, .upgradeInfo u]
        = (WaitForBlockHeight.start ⟨cmd, some u⟩,
            [.recvHeader ⟨some headerEvt, events⟩, .recvUpgrades u]))
    ∧ (headerEvt.Header.Height ≠ u.Height → nextEvt.Header.Height = u.Height →
      Thread.run WaitForBlockHeight.body (WaitForBlockHeight.start ⟨cmd, none⟩)
          [.event ⟨some headerEvt, events⟩, .upgradeInfo u,
            .event ⟨some nextEvt, nextEvents⟩, .result none, .result none,
            .launched newCmd none, .ack]
        = (WaitForBlockHeight.start ⟨newCmd, some u⟩,
            [.recvHeader ⟨some headerEvt, events⟩, .recvUpgrades u,
              .recvHeader ⟨some nextEvt, nextEvents⟩, .call (.kill cmd) none,
              .call (.upgrade u) none, .launch newCmd none, .send (.commands newCmd)])) := by
  refine ⟨?_, ?_, ?_⟩
  · intro h
    simp [Thread.run, Thread.step, Prog.step, Thread.settle, WaitForBlockHeight.start,
      WaitForBlockHeight.body, fillLatch, sendIfErr, h]
  · intro h
    have h1 : ¬ u.Height = headerEvt.Header.Height := fun e => h e.symm
    simp [Thread.run, Thread.step, Prog.step, Thread.settle, WaitForBlockHeight.start,
      WaitForBlockHeight.body, fillLatch, sendIfErr, h1]
  · intro h hn
    have h1 : ¬ u.Height = headerEvt.Header.Height := fun e => h e.symm
    simp [Thread.run, Thread.step, Prog.step, Thread.settle, WaitForBlockHeight.start,
      WaitForBlockHeight.body, fillLatch, sendIfErr, h1, hn]

/-- Witness for C18: the header of height 50 then `v2` at height 50; the
header of height 49, `v2` at height 50, then the header of height 50. -/
theorem WaitForBlockHeight_compares_held_header_witness :
    ((⟨⟨50⟩⟩ : EventDataNewBlockHeader).Header.Height = (⟨"v2", 50⟩ : UpgradeInfo).Height
      ∧ Thread.run WaitForBlockHeight.body (WaitForBlockHeight.start ⟨0, none⟩)
          [.event ⟨some ⟨⟨50⟩⟩, []⟩, .upgradeInfo ⟨"v2", 50⟩, .result none, .result none,
            .launched 1 none, .ack]
        = (WaitForBlockHeight.start ⟨1, some ⟨"v2", 50⟩⟩,
            [.recvHeader ⟨some ⟨⟨50⟩⟩, []⟩, .recvUpgrades ⟨"v2", 50⟩, .call (.kill 0) none,
              .call (.upgrade ⟨"v2", 50⟩) none, .launch 1 none, .send (.commands 1)]))
    ∧ ((⟨⟨49⟩⟩ : EventDataNewBlockHeader).Header.Height ≠ (⟨"v2", 50⟩ : UpgradeInfo).Height
      ∧ Thread.run WaitForBlockHeight.body (WaitForBlockHeight.start ⟨0, none⟩)
          [.event ⟨some ⟨⟨49⟩⟩, []⟩, .upgradeInfo ⟨"v2", 50⟩,
            .event ⟨some ⟨⟨50⟩⟩, []⟩, .result none, .result none, .launched 1 none, .ack]
        = (WaitForBlockHeight.start ⟨1, some ⟨"v2", 50⟩⟩,
            [.recvHeader ⟨some ⟨⟨49⟩⟩, []⟩, .recvUpgrades ⟨"v2", 50⟩,
              .recvHeader ⟨some ⟨⟨50⟩⟩, []⟩, .call (.kill 0) none,
              .call (.upgrade ⟨"v2", 50⟩) none, .launch 1 none, .send (.commands 1)])) :=
  ⟨⟨by decide,
      (WaitForBlockHeight_compares_held_header 0 1 ⟨"v2", 50⟩ ⟨⟨50⟩⟩ ⟨⟨50⟩⟩ [] []).1
        (by decide)⟩,
    ⟨by decide,
      (WaitForBlockHeight_compares_held_header 0 1 ⟨"v2", 50⟩ ⟨⟨49⟩⟩ ⟨⟨50⟩⟩ [] []).2.2
        (by decide) (by decide)⟩⟩

/-- C15 (evaluation of the code): with `u` pending and a header of its height,
a failing step does not stop the activation.  When `Kill` fails, once the
send of its error is taken the watcher goes on with `runner.Upgrade`,
`LaunchProcess` and the send on `commands`; when the swap fails, it goes on
with `LaunchProcess` and the send on `commands`; when the relaunch fails, it
still sends the returned handle on `commands`. -/
theorem WaitForBlockHeight_continues_after_error
    (cmd newCmd : Cmd) (u : UpgradeInfo) (err : GoError) :
    Thread.run WaitForBlockHeight.body (WaitForBlockHeight.start ⟨cmd, some u⟩)
        [.event (headerEvent u.Height), .result (some err), .ack, .result none,
          .launched newCmd none, .ack]
      = (WaitForBlockHeight.start ⟨newCmd, some u⟩,
          [.recvHeader (headerEvent u.Height), .call (.kill cmd) (some err),
            .send (.errors err), .call (.upgrade u) none, .launch newCmd none,
            .send (.commands newCmd)])
    ∧ Thread.run WaitForBlockHeight.body (WaitForBlockHeight.start ⟨cmd, some u⟩)
        [.event (headerEvent u.Height), .result none, .result (some err), .ack,
          .launched newCmd none, .ack]
      = (WaitForBlockHeight.start ⟨newCmd, some u⟩,
          [.recvHeader (headerEvent u.Height), .call (.kill cmd) none,
            .call (.upgrade u) (some err), .send (.errors err), .launch newCmd none,
            .send (.commands newCmd)])
    ∧ Thread.run WaitForBlockHeight.body (WaitForBlockHeight.start ⟨cmd, some u⟩)
        [.event (headerEvent u.Height), .result none, .result none,
          .launched newCmd (some err), .ack, .ack]
      = (WaitForBlockHeight.start ⟨newCmd, some u⟩,
          [.recvHeader (headerEvent u.Height), .call (.kill cmd) none,
            .call (.upgrade u) none, .launch newCmd (some err), .send (.errors err),
            .send (.commands newCmd)]) := by
  refine ⟨?_, ?_, ?_⟩ <;>
    simp [Thread.run, Thread.step, Prog.step, Thread.settle, WaitForBlockHeight.start,
      WaitForBlockHeight.body, fillLatch, sendIfErr, headerEvent]

/-- C17 (counterexample): `v2` pending at height 50, handle 0.  The header of
height 50 activates it (child 1 launched, handle sent); a second header of
height 50 activates it again: `Kill` of child 1, a second swap, child 2
launched and sent. -/
theorem repeated_target_height_activates_twice :
    Thread.run WaitForBlockHeight.body (WaitForBlockHeight.start ⟨0, some ⟨"v2", 50⟩⟩)
        [.event (headerEvent 50), .result none, .result none, .launched 1 none, .ack,
          .event (headerEvent 50), .result none, .result none, .launched 2 none, .ack]
      = (WaitForBlockHeight.start ⟨2, some ⟨"v2", 50⟩⟩,
          [.recvHeader (headerEvent 50), .call (.kill 0) none,
            .call (.upgrade ⟨"v2", 50⟩) none, .launch 1 none, .send (.commands 1),
            .recvHeader (headerEvent 50), .call (.kill 1) none,
            .call (.upgrade ⟨"v2", 50⟩) none, .launch 2 none, .send (.commands 2)]) := by
  rfl

/-- C17 (amended): the activation does not clear the latch.  After kill, swap
and relaunch for `u` and the send of the new handle, the watcher is at its
select holding the new handle and still `u`; a later header of height
`u.Height` makes it kill the new child, swap and launch again, and a later
header of another height is discarded. -/
theorem activation_keeps_upgrade_pending
    (cmd c1 c2 : Cmd) (u : UpgradeInfo) (other : Int) (hOther : other ≠ u.Height) :
    Thread.run WaitForBlockHeight.body (WaitForBlockHeight.start ⟨cmd, some u⟩)
        [.event (headerEvent u.Height), .result none, .result none, .launched c1 none, .ack]
      = (WaitForBlockHeight.start ⟨c1, some u⟩,
          [.recvHeader (headerEvent u.Height), .call (.kill cmd) none,
            .call (.upgrade u) none, .launch c1 none, .send (.commands c1)])
    ∧ Thread.run WaitForBlockHeight.body (WaitForBlockHeight.start ⟨cmd, some u⟩)
        [.event (headerEvent u.Height), .result none, .result none, .launched c1 none, .ack,
          .event (headerEvent u.Height), .result none, .result none, .launched c2 none, .ack]
      = (WaitForBlockHeight.start ⟨c2, some u⟩,
          [.recvHeader (headerEvent u.Height), .call (.kill cmd) none,
            .call (.upgrade u) none, .launch c1 none, .send (.commands c1),
            .recvHeader (headerEvent u.Height), .call (.kill c1) none,
            .call (.upgrade u) none, .launch c2 none, .send (.commands c2)])
    ∧ Thread.run WaitForBlockHeight.body (WaitForBlockHeight.start ⟨cmd, some u⟩)
        [.event (headerEvent u.Height), .result none, .result none, .launched c1 none, .ack,
          .event (headerEvent other)]
      = (WaitForBlockHeight.start ⟨c1, some u⟩,
          [.recvHeader (headerEvent u.Height), .call (.kill cmd) none,
            .call (.upgrade u) none, .launch c1 none, .send (.commands c1),
            .recvHeader (headerEvent other)]) := by
  have h : ¬ u.Height = other := fun e => hOther e.symm
  refine ⟨?_, ?_, ?_⟩ <;>
    simp [Thread.run, Thread.step, Prog.step, Thread.settle, WaitForBlockHeight.start,
      WaitForBlockHeight.body, fillLatch, sendIfErr, headerEvent, h]

/-- Witness for C17 (amended): `v2` pending at height 50; headers 50 and 51. -/
theorem activation_keeps_upgrade_pending_witness :
    (51 : Int) ≠ (⟨"v2", 50⟩ : UpgradeInfo).Height
    ∧ Thread.run WaitForBlockHeight.body (WaitForBlockHeight.start ⟨0, some ⟨"v2", 50⟩⟩)
        [.event (headerEvent 50), .result none, .result none, .launched 1 none, .ack,
          .event (headerEvent 51)]
      = (WaitForBlockHeight.start ⟨1, some ⟨"v2", 50⟩⟩,
          [.recvHeader (headerEvent 50), .call (.kill 0) none,
            .call (.upgrade ⟨"v2", 50⟩) none, .launch 1 none, .send (.commands 1),
            .recvHeader (headerEvent 51)]) :=
  ⟨by decide, (activation_keeps_upgrade_pending 0 1 2 ⟨"v2", 50⟩ 51 (by decide)).2.2⟩

/-- C12 (counterexample): a signal arrives while the variable `cmd` of `Run`
is child 0 and `Kill` fails: `Run` ends with `os.Exit(1)`. -/
theorem signal_shutdown_exits_one_on_kill_failure :
    Thread.run Run.mainBody (.running (Run.mainBody 0))
        [.main .signal, .ack, .ack, .result (some "kill failed")]
      = (.exited 1,
          [.recvMain .signal, .eff .cancel, .eff .stopListener,
            .call (.kill 0) (some "kill failed")]) := by
  rfl

/-- C12 (amended): on a signal the main loop of `Run` calls `cancel()`, stops
the listener and calls `Kill` on the child in its variable `cmd`, in this
order; it ends with `os.Exit(0)` when `Kill` succeeds and with `os.Exit(1)`
when `Kill` returns an error. -/
theorem signal_shutdown_sequence (cmd : Cmd) (err : GoError) :
    Thread.run Run.mainBody (.running (Run.mainBody cmd))
        [.main .signal, .ack, .ack, .result none]
      = (.exited 0,
          [.recvMain .signal, .eff .cancel, .eff .stopListener, .call (.kill cmd) none])
    ∧ Thread.run Run.mainBody (.running (Run.mainBody cmd))
        [.main .signal, .ack, .ack, .result (some err)]
      = (.exited 1,
          [.recvMain .signal, .eff .cancel, .eff .stopListener,
            .call (.kill cmd) (some err)]) := by
  constructor <;> rfl

/-- A goroutine that has called `os.Exit` completes nothing more. -/
theorem Thread.run_exited {σ : Type} (body : σ → Prog (Ctl σ)) (code : Nat) (rs : List Resp) :
    Thread.run body (.exited code) rs = (.exited code, []) :=
  Thread.run_blocked body (.exited code) rs (fun _ _ => rfl)

/-- C14 (evaluation of the code): a failing config load and a failing initial
launch end `Run` with `os.Exit(1)` and nothing else, and an error received by
the main loop is followed in `Run` by `os.Exit(1)` only.  But the watcher
whose send on `errors` the main loop took is not stopped by it.  When `Kill`
fails in `WaitForBlockHeight`, the main loop takes the error and the watcher
goes on with `runner.Upgrade`, `LaunchProcess` and the send on `commands`.
When `WaitForUpgrade` reports a missing binary (download disabled) for
`name=v2,height=50`, the main loop takes the error, the watcher goes on to
send the upgrade on `upgrades`, and a `WaitForBlockHeight` holding the header
of height 50 receives it and kills child 0, swaps and launches child 1. -/
theorem error_on_errors_leaves_watchers_running
    (cfg : Config) (cmd runCmd newCmd : Cmd) (u : UpgradeInfo) (err : GoError)
    (rs : List Resp) :
    Thread.run Run.mainBody (.running Run.prologue) (.config cfg (some err) :: rs)
      = (.exited 1, [.getConfigFromEnv (some err)])
    ∧ Thread.run Run.mainBody (.running Run.prologue)
        (.config cfg none :: .launched cmd (some err) :: rs)
      = (.exited 1, [.getConfigFromEnv none, .launch cmd (some err)])
    ∧ Thread.run Run.mainBody (.running (Run.mainBody runCmd)) (.main (.error err) :: rs)
      = (.exited 1, [.recvMain (.error err)])
    ∧ (Thread.run WaitForBlockHeight.body (WaitForBlockHeight.start ⟨cmd, some u⟩)
        [.event (headerEvent u.Height), .result (some err)]).1.op
      = some (.send (.errors err))
    ∧ (rendezvous WaitForBlockHeight.body Run.mainBody
        (Thread.run WaitForBlockHeight.body (WaitForBlockHeight.start ⟨cmd, some u⟩)
          [.event (headerEvent u.Height), .result (some err)]).1
        (.running (Run.mainBody runCmd))).map
          (fun x => (x.2.1, x.2.2.op,
            (Thread.run WaitForBlockHeight.body x.1.2
              [.result none, .launched newCmd none, .ack]).2))
      = some (.recvMain (.error err), none,
          [.call (.upgrade u) none, .launch newCmd none, .send (.commands newCmd)])
    ∧ ((rendezvous (WaitForUpgrade.body ⟨false, id⟩) Run.mainBody
        (Thread.run (WaitForUpgrade.body ⟨false, id⟩) (WaitForUpgrade.start ⟨false, id⟩)
          [.event (announcement ["name=v2,height=50"]), .parsed ⟨"v2", 50⟩ none,
            .result (some "not found")]).1
        (.running (Run.mainBody 0))).bind fun x =>
          (rendezvous (WaitForUpgrade.body ⟨false, id⟩) WaitForBlockHeight.body x.1.2
            (Thread.run WaitForBlockHeight.body (WaitForBlockHeight.start ⟨0, none⟩)
              [.event (headerEvent 50)]).1).map fun y =>
                (x.2.1, x.1.1, y.2.1,
                  (Thread.run WaitForBlockHeight.body y.2.2
                    [.result none, .result none, .launched 1 none]).2))
      = some (.recvMain (.error "not found"), .send (.errors "not found"),
          .recvUpgrades ⟨"v2", 50⟩,
          [.call (.kill 0) none, .call (.upgrade ⟨"v2", 50⟩) none, .launch 1 none]) := by
  refine ⟨?_, ?_, ?_, ?_, ?_, ?_⟩
  · simp [Thread.run, Thread.step, Prog.step, Thread.settle, Run.prologue, Thread.run_exited]
  · simp [Thread.run, Thread.step, Prog.step, Thread.settle, Run.prologue, Thread.run_exited]
  · simp [Thread.run, Thread.step, Prog.step, Thread.settle, Run.mainBody, Thread.run_exited]
  · simp [Thread.run, Thread.step, Prog.step, Thread.settle, WaitForBlockHeight.start,
      WaitForBlockHeight.body, fillLatch, sendIfErr, headerEvent, Thread.op, Prog.op]
  · simp [Thread.run, Thread.step, Prog.step, Thread.settle, WaitForBlockHeight.start,
      WaitForBlockHeight.body, Run.mainBody, fillLatch, sendIfErr, headerEvent, Thread.op,
      Prog.op, rendezvous, Msg.delivery]
  · rfl

/-- The signal case of the main loop, when `Kill` succeeds. -/
theorem signalLog_eq (cmd : Cmd) :
    signalLog cmd none
      = [.recvMain .signal, .eff .cancel, .eff .stopListener, .call (.kill cmd) none] := by
  rfl

/-- C13 (evaluation of the code): before any upgrade a signal makes `Run` kill
the initially launched child, and no child is left.  After one upgrade
cycle the handle `Run` kills is the child launched by the fan-out loop at
line 57, while the handle sent on `commands`, which the last `fanJobs` gave
to the new `WaitForBlockHeight`, is the child launched at line 114: that
child is still alive after the shutdown. -/
theorem signal_kills_fan_out_child (cfg : Config) (c0 : Cmd) (c : Cycle) :
    killedHandles (signalLog (runCmdAfter (assignedCmd c0 (startupLog cfg c0)) []) none)
      = [c0]
    ∧ liveChildren (shutdownLog cfg c0 []) = []
    ∧ killedHandles (signalLog (runCmdAfter (assignedCmd c0 (startupLog cfg c0)) [c]) none)
      = [c.fanOutChild]
    ∧ lastSentCommand (supervisorLog cfg c0 [c]) = some c.watcherChild
    ∧ lastFanJobs (supervisorLog cfg c0 [c]) = some c.watcherChild
    ∧ liveChildren (shutdownLog cfg c0 [c]) = [c.watcherChild] := by
  have hStart : assignedCmd c0 (startupLog cfg c0) = c0 := by
    rw [startupLog_eq]
    rfl
  have hCycle : runCmdAfter c0 [c] = c.fanOutChild := by
    simp only [runCmdAfter, fanOutLog_eq]
    rfl
  refine ⟨?_, ?_, ?_, ?_, ?_, ?_⟩
  · rw [hStart]
    rfl
  · rw [shutdownLog, hStart, runCmdAfter, signalLog_eq, supervisorLog, continueRun,
      startupLog_eq]
    simp [liveChildren, liveFrom, liveAfter]
  · rw [hStart, hCycle]
    rfl
  · rw [supervisorLog_one_cycle]
    rfl
  · rw [supervisorLog_one_cycle]
    rfl
  · rw [shutdownLog, hStart, hCycle, signalLog_eq, supervisorLog_one_cycle]
    simp [liveChildren, liveFrom, liveAfter]

/-- C11 (counterexample): on a closed `TxChan`, `WaitForUpgrade` receives the
zero-value event and is back at its select; it has not returned.  On a
closed `HeaderChan`, `WaitForBlockHeight` with `v2` pending receives the
zero-value event and panics; with the latch empty it is blocked in
`<-upgrades`, not returned. -/
theorem closed_channel_is_not_cancellation :
    Thread.run (WaitForUpgrade.body ⟨false, id⟩) (WaitForUpgrade.start ⟨false, id⟩)
        [closedChannel, closedChannel]
      = (WaitForUpgrade.start ⟨false, id⟩, [.recvTx zeroEvent, .recvTx zeroEvent])
    ∧ (Thread.run (WaitForUpgrade.body ⟨false, id⟩) (WaitForUpgrade.start ⟨false, id⟩)
        [closedChannel, closedChannel]).1.isReturned = false
    ∧ Thread.run WaitForBlockHeight.body (WaitForBlockHeight.start ⟨0, some ⟨"v2", 50⟩⟩)
        [closedChannel]
      = (.panicked, [.recvHeader zeroEvent])
    ∧ (Thread.run WaitForBlockHeight.body (WaitForBlockHeight.start ⟨0, none⟩)
        [closedChannel]).1.op = some .recvUpgrades
    ∧ (Thread.run WaitForBlockHeight.body (WaitForBlockHeight.start ⟨0, none⟩)
        [closedChannel]).1.isReturned = false := by
  refine ⟨?_, ?_, ?_, ?_, ?_⟩ <;> rfl

/-- `WaitForUpgrade` on a closed `TxChan`: every zero-value event is received
and ignored. -/
theorem WaitForUpgrade.run_closed (cfg : Config) (n : Nat) :
    Thread.run (WaitForUpgrade.body cfg) (WaitForUpgrade.start cfg)
        (List.replicate n closedChannel)
      = (WaitForUpgrade.start cfg, List.replicate n (.recvTx zeroEvent)) := by
  induction n with
  | zero => rfl
  | succ n ih =>
    have hstep : Thread.step (WaitForUpgrade.body cfg) (WaitForUpgrade.start cfg)
        closedChannel = some (.recvTx zeroEvent, WaitForUpgrade.start cfg) := by
      rfl
    rw [List.replicate_succ, Thread.run_cons_of_step _ _ _ _ _ _ hstep, ih]
    rfl

/-- C11 (amended): neither watcher treats a closed event channel as
cancellation; the zero-value event is handled like a delivered event and the
watcher does not return.  `WaitForUpgrade` finds no `upgrade.action` value:
it receives and ignores the event, any number of times, with no other
operation.  `WaitForBlockHeight` with the latch empty goes to the receive on
`upgrades`; once an upgrade is pending, the type assertion of line 102 on the
nil `Data` panics.  No Kill, swap, launch or send is performed. -/
theorem closed_channel_processed_as_event
    (cfg : Config) (cmd : Cmd) (u : UpgradeInfo) (n : Nat) :
    Thread.run (WaitForUpgrade.body cfg) (WaitForUpgrade.start cfg)
        (List.replicate n closedChannel)
      = (WaitForUpgrade.start cfg, List.replicate n (.recvTx zeroEvent))
    ∧ Thread.run WaitForBlockHeight.body (WaitForBlockHeight.start ⟨cmd, some u⟩)
        [closedChannel]
      = (.panicked, [.recvHeader zeroEvent])
    ∧ (Thread.run WaitForBlockHeight.body (WaitForBlockHeight.start ⟨cmd, none⟩)
        [closedChannel]).2 = [.recvHeader zeroEvent]
    ∧ (Thread.run WaitForBlockHeight.body (WaitForBlockHeight.start ⟨cmd, none⟩)
        [closedChannel]).1.op = some .recvUpgrades
    ∧ Thread.run WaitForBlockHeight.body (WaitForBlockHeight.start ⟨cmd, none⟩)
        [closedChannel, .upgradeInfo u]
      = (.panicked, [.recvHeader zeroEvent, .recvUpgrades u]) := by
  refine ⟨WaitForUpgrade.run_closed cfg n, ?_, ?_, ?_, ?_⟩ <;> rfl

/-- A step of a tree all of whose operations are allowed by `latchedOp u`. -/
theorem Prog.step_of_All {u : UpgradeInfo} {p q : Prog (Ctl HeightState)} {r : Resp} {a : Act}
    (hp : p.All (latchedOp u) (latchedRet u)) (h : p.step r = some (a, q)) :
    q.All (latchedOp u) (latchedRet u) ∧ a.isRecvUpgrades = false ∧ a.swapsOnly u := by
  cases p <;> cases r <;> simp [Prog.step] at h <;> obtain ⟨rfl, rfl⟩ := h <;>
    simp_all [Prog.All, latchedOp, Act.isRecvUpgrades, Act.swapsOnly]
  case call.result f k err =>
    cases f <;> simp_all [Act.swapsOnly]

/-- What follows the `select` of an iteration with `u` in the latch. -/
theorem WaitForBlockHeight.step_of_latched {u : UpgradeInfo} {cmd : Cmd}
    {q : Prog (Ctl HeightState)} {r : Resp} {a : Act}
    (h : (WaitForBlockHeight.body ⟨cmd, some u⟩).step r = some (a, q)) :
    q.All (latchedOp u) (latchedRet u) ∧ a.isRecvUpgrades = false ∧ a.swapsOnly u := by
  cases r <;> simp [WaitForBlockHeight.body, Prog.step, fillLatch] at h <;>
    obtain ⟨rfl, rfl⟩ := h
  case event e =>
    refine ⟨?_, rfl, trivial⟩
    cases hd : e.Data with
    | none => simp [Prog.All]
    | some headerEvt =>
      by_cases hh : u.Height = headerEvt.Header.Height
      · simp only [ne_eq, hh, not_true_eq_false, ↓reduceIte, Prog.All, latchedOp]
        refine ⟨by simp, fun e1 => ?_⟩
        cases e1 <;> simp [sendIfErr, Prog.All, latchedOp, latchedRet] <;>
          intro e2 <;> cases e2 <;> simp [sendIfErr, Prog.All, latchedOp, latchedRet] <;>
          intro c e3 <;> cases e3 <;> simp [sendIfErr, Prog.All, latchedOp, latchedRet]
      · simp [hh, Prog.All, latchedRet]
  case done =>
    exact ⟨by simp [Prog.All, latchedRet], rfl, trivial⟩

/-- The end of an iteration that keeps `u` leads to a state holding `u`. -/
theorem Latched.of_settle {u : UpgradeInfo} {q : Prog (Ctl HeightState)}
    (hq : q.All (latchedOp u) (latchedRet u)) :
    Latched u (Thread.settle WaitForBlockHeight.body q) := by
  cases q with
  | ret ctl =>
    cases ctl with
    | loop s =>
      obtain ⟨cmd, currentUpgrade⟩ := s
      simp only [Prog.All, latchedRet] at hq
      subst hq
      exact Or.inl ⟨cmd, rfl⟩
    | stop => trivial
  | panic => trivial
  | osExit code => trivial
  | selectHeader k => exact Or.inr hq
  | selectTx k => exact Or.inr hq
  | selectMain k => exact Or.inr hq
  | recvUpgrades k => exact Or.inr hq
  | recvCommands k => exact Or.inr hq
  | send m k => exact Or.inr hq
  | call f k => exact Or.inr hq
  | launch k => exact Or.inr hq
  | setUpgrade s k => exact Or.inr hq
  | getConfigFromEnv k => exact Or.inr hq
  | eff e k => exact Or.inr hq

/-- With `u` in the latch, an operation of `WaitForBlockHeight` keeps `u` in
the latch, is no receive on `upgrades`, and is no swap for another upgrade. -/
theorem Latched.step_keeps {u : UpgradeInfo} {t t1 : Thread HeightState} {r : Resp} {a : Act}
    (ht : Latched u t) (h : Thread.step WaitForBlockHeight.body t r = some (a, t1)) :
    Latched u t1 ∧ a.isRecvUpgrades = false ∧ a.swapsOnly u := by
  cases t with
  | running p =>
    simp only [Thread.step, Option.map_eq_some', Prod.mk.injEq, Prod.exists] at h
    obtain ⟨a1, q, hstep, rfl, rfl⟩ := h
    rcases ht with ⟨cmd, rfl⟩ | hp
    · have := WaitForBlockHeight.step_of_latched hstep
      exact ⟨Latched.of_settle this.1, this.2⟩
    · have := Prog.step_of_All hp hstep
      exact ⟨Latched.of_settle this.1, this.2⟩
  | returned => simp [Thread.step] at h
  | panicked => simp [Thread.step] at h
  | exited code => simp [Thread.step] at h

/-- With `u` in the latch, whatever is offered to `WaitForBlockHeight`, it
keeps `u` in the latch, never receives on `upgrades` and swaps for `u` only. -/
theorem Latched.run_keeps {u : UpgradeInfo} (rs : List Resp) :
    ∀ t : Thread HeightState, Latched u t →
      Latched u (Thread.run WaitForBlockHeight.body t rs).1
      ∧ (Thread.run WaitForBlockHeight.body t rs).2.countP Act.isRecvUpgrades = 0
      ∧ ∀ a ∈ (Thread.run WaitForBlockHeight.body t rs).2, a.swapsOnly u := by
  induction rs with
  | nil => intro t ht; exact ⟨ht, rfl, by simp [Thread.run]⟩
  | cons r rs ih =>
    intro t ht
    cases h : Thread.step WaitForBlockHeight.body t r with
    | none =>
      have : Thread.run WaitForBlockHeight.body t (r :: rs)
          = Thread.run WaitForBlockHeight.body t rs := by simp [Thread.run, h]
      rw [this]
      exact ih t ht
    | some x =>
      obtain ⟨a, t1⟩ := x
      have hs := Latched.step_keeps ht h
      have hr := ih t1 hs.1
      rw [Thread.run_cons_of_step _ _ _ _ _ _ h]
      refine ⟨hr.1, ?_, ?_⟩
      · simp [List.countP_cons, hr.2.1, hs.2.1]
      · intro b hb
        rcases List.mem_cons.mp hb with rfl | hb
        · exact hs.2.2
        · exact hr.2.2 b hb

/-- With the latch empty, an operation of `WaitForBlockHeight` is either a
receive of a header or a return, leaving the latch empty, or the receive of
an upgrade, which fills the latch. -/
theorem Unlatched.step_fills {t t1 : Thread HeightState} {r : Resp} {a : Act}
    (ht : Unlatched t) (h : Thread.step WaitForBlockHeight.body t r = some (a, t1)) :
    (Unlatched t1 ∧ a.isRecvUpgrades = false ∧ ∀ u, a.swapsOnly u)
      ∨ ∃ u, a = .recvUpgrades u ∧ Latched u t1 := by
  cases t with
  | running p =>
    simp only [Thread.step, Option.map_eq_some', Prod.mk.injEq, Prod.exists] at h
    obtain ⟨a1, q, hstep, rfl, rfl⟩ := h
    rcases ht with ⟨cmd, rfl⟩ | ⟨k, rfl, hk⟩
    · left
      cases r with
      | event e =>
        simp only [WaitForBlockHeight.body, Prog.step, fillLatch, Option.some.injEq,
          Prod.mk.injEq] at hstep
        obtain ⟨rfl, rfl⟩ := hstep
        refine ⟨Or.inr ⟨_, rfl, fun u => ?_⟩, rfl, fun _ => trivial⟩
        exact (@WaitForBlockHeight.step_of_latched u cmd _ (.event e) _ rfl).1
      | done =>
        simp only [WaitForBlockHeight.body, Prog.step, Option.some.injEq,
          Prod.mk.injEq] at hstep
        obtain ⟨rfl, rfl⟩ := hstep
        exact ⟨trivial, rfl, fun _ => trivial⟩
      | _ => simp [WaitForBlockHeight.body, Prog.step] at hstep
    · right
      cases r <;> simp [Prog.step] at hstep
      case upgradeInfo u =>
        obtain ⟨rfl, rfl⟩ := hstep
        exact ⟨u, rfl, Latched.of_settle (hk u)⟩
  | returned => simp [Thread.step] at h
  | panicked => exact absurd ht (by simp [Unlatched])
  | exited code => exact absurd ht (by simp [Unlatched])

/-- With the latch empty, whatever is offered to `WaitForBlockHeight`, it
receives on `upgrades` at most once, and every swap is for the upgrade it
received. -/
theorem Unlatched.run_once (rs : List Resp) :
    ∀ t : Thread HeightState, Unlatched t →
      (Thread.run WaitForBlockHeight.body t rs).2.countP Act.isRecvUpgrades ≤ 1
      ∧ ∀ u, .recvUpgrades u ∈ (Thread.run WaitForBlockHeight.body t rs).2 →
          ∀ a ∈ (Thread.run WaitForBlockHeight.body t rs).2, a.swapsOnly u := by
  induction rs with
  | nil => intro t _; simp [Thread.run]
  | cons r rs ih =>
    intro t ht
    cases h : Thread.step WaitForBlockHeight.body t r with
    | none =>
      have : Thread.run WaitForBlockHeight.body t (r :: rs)
          = Thread.run WaitForBlockHeight.body t rs := by simp [Thread.run, h]
      rw [this]
      exact ih t ht
    | some x =>
      obtain ⟨a, t1⟩ := x
      rw [Thread.run_cons_of_step _ _ _ _ _ _ h]
      rcases Unlatched.step_fills ht h with ⟨ht1, ha, hsw⟩ | ⟨u, rfl, ht1⟩
      · have hr := ih t1 ht1
        refine ⟨by simp [List.countP_cons, ha, hr.1], ?_⟩
        intro u hu b hb
        have hu1 : Act.recvUpgrades u ∈ (Thread.run WaitForBlockHeight.body t1 rs).2 := by
          rcases List.mem_cons.mp hu with rfl | hu
          · simp [Act.isRecvUpgrades] at ha
          · exact hu
        rcases List.mem_cons.mp hb with rfl | hb
        · exact hsw u
        · exact hr.2 u hu1 b hb
      · have hr := Latched.run_keeps rs t1 ht1
        refine ⟨by simp [List.countP_cons, hr.2.1, Act.isRecvUpgrades], ?_⟩
        intro u1 hu b hb
        have hmem : ∀ v, Act.recvUpgrades v ∉ (Thread.run WaitForBlockHeight.body t1 rs).2 := by
          intro v hv
          have := List.countP_pos_iff.mpr ⟨_, hv, (rfl : (Act.recvUpgrades v).isRecvUpgrades = true)⟩
          omega
        have hu1 : u1 = u := by
          rcases List.mem_cons.mp hu with e | hu
          · exact Act.recvUpgrades.inj e
          · exact absurd hu (hmem u1)
        subst hu1
        rcases List.mem_cons.mp hb with rfl | hb
        · trivial
        · exact hr.2.2 b hb

/-- The operation at the root of an allowed tree is allowed. -/
theorem Prog.op_of_All {α : Type} {okOp : Op → Prop} {okRet : α → Prop} {p : Prog α} {o : Op}
    (hp : p.All okOp okRet) (ho : p.op = some o) : okOp o := by
  cases p <;> simp [Prog.op] at ho <;> subst ho <;> exact hp.1

/-- A state holding `u` that is at the select is the top of the loop with
`currentUpgrade = u`. -/
theorem Latched.at_select {u : UpgradeInfo} {t : Thread HeightState} (ht : Latched u t)
    (ho : t.op = some .selectHeader) : ∃ cmd, t = WaitForBlockHeight.start ⟨cmd, some u⟩ := by
  cases t with
  | running p =>
    rcases ht with ⟨cmd, rfl⟩ | hp
    · exact ⟨cmd, rfl⟩
    · exact absurd rfl (Prog.op_of_All hp ho).2.1
  | returned => simp [Thread.op] at ho
  | panicked => simp [Thread.op] at ho
  | exited code => simp [Thread.op] at ho

/-- C16: one incarnation of `WaitForBlockHeight` fills its latch at most once
and the first upgrade stays.  Whatever is offered to the watcher: started with
the latch empty, it completes at most one receive on `upgrades`, and every
swap it performs is for the upgrade it received; started with `u` in the
latch, it completes no receive on `upgrades`, every swap it performs is for
`u`, and whenever it is at its select it is at the top of its loop with
`currentUpgrade = u`. -/
theorem WaitForBlockHeight_single_latch (cmd : Cmd) (u : UpgradeInfo) (rs : List Resp) :
    (Thread.run WaitForBlockHeight.body (WaitForBlockHeight.start ⟨cmd, none⟩)
        rs).2.countP Act.isRecvUpgrades ≤ 1
    ∧ (∀ u1, .recvUpgrades u1
          ∈ (Thread.run WaitForBlockHeight.body (WaitForBlockHeight.start ⟨cmd, none⟩) rs).2 →
        ∀ a ∈ (Thread.run WaitForBlockHeight.body (WaitForBlockHeight.start ⟨cmd, none⟩) rs).2,
          a.swapsOnly u1)
    ∧ (Thread.run WaitForBlockHeight.body (WaitForBlockHeight.start ⟨cmd, some u⟩)
        rs).2.countP Act.isRecvUpgrades = 0
    ∧ (∀ a ∈ (Thread.run WaitForBlockHeight.body (WaitForBlockHeight.start ⟨cmd, some u⟩) rs).2,
        a.swapsOnly u)
    ∧ ((Thread.run WaitForBlockHeight.body (WaitForBlockHeight.start ⟨cmd, some u⟩)
          rs).1.op = some .selectHeader →
        ∃ c, (Thread.run WaitForBlockHeight.body (WaitForBlockHeight.start ⟨cmd, some u⟩) rs).1
          = WaitForBlockHeight.start ⟨c, some u⟩) := by
  have hEmpty : Unlatched (WaitForBlockHeight.start ⟨cmd, none⟩) := Or.inl ⟨cmd, rfl⟩
  have hFull : Latched u (WaitForBlockHeight.start ⟨cmd, some u⟩) := Or.inl ⟨cmd, rfl⟩
  have h1 := Unlatched.run_once rs _ hEmpty
  have h2 := Latched.run_keeps rs _ hFull
  exact ⟨h1.1, h1.2, h2.2.1, h2.2.2, fun ho => Latched.at_select h2.1 ho⟩

/-- Witness for C16: with the latch empty, the header 49, `v2` at height 50,
a second upgrade offered, the header 50 and a successful activation; with
`v2` in the latch, the header 50, a successful activation and a second
upgrade offered. -/
theorem WaitForBlockHeight_single_latch_witness :
    (Act.recvUpgrades ⟨"v2", 50⟩
        ∈ (Thread.run WaitForBlockHeight.body (WaitForBlockHeight.start ⟨0, none⟩)
            [.event (headerEvent 49), .upgradeInfo ⟨"v2", 50⟩, .upgradeInfo ⟨"v3", 50⟩,
              .event (headerEvent 50), .result none, .result none, .launched 1 none, .ack]).2
      ∧ ∀ a ∈ (Thread.run WaitForBlockHeight.body (WaitForBlockHeight.start ⟨0, none⟩)
            [.event (headerEvent 49), .upgradeInfo ⟨"v2", 50⟩, .upgradeInfo ⟨"v3", 50⟩,
              .event (headerEvent 50), .result none, .result none, .launched 1 none, .ack]).2,
          a.swapsOnly ⟨"v2", 50⟩)
    ∧ ((Thread.run WaitForBlockHeight.body (WaitForBlockHeight.start ⟨0, some ⟨"v2", 50⟩⟩)
          [.event (headerEvent 50), .result none, .result none, .launched 1 none, .ack,
            .upgradeInfo ⟨"v3", 50⟩]).1.op = some .selectHeader
      ∧ ∃ c, (Thread.run WaitForBlockHeight.body
          (WaitForBlockHeight.start ⟨0, some ⟨"v2", 50⟩⟩)
          [.event (headerEvent 50), .result none, .result none, .launched 1 none, .ack,
            .upgradeInfo ⟨"v3", 50⟩]).1
        = WaitForBlockHeight.start ⟨c, some ⟨"v2", 50⟩⟩) :=
  ⟨⟨by decide,
      (WaitForBlockHeight_single_latch 0 ⟨"v2", 50⟩
        [.event (headerEvent 49), .upgradeInfo ⟨"v2", 50⟩, .upgradeInfo ⟨"v3", 50⟩,
          .event (headerEvent 50), .result none, .result none, .launched 1 none, .ack]).2.1
        ⟨"v2", 50⟩ (by decide)⟩,
    ⟨rfl,
      (WaitForBlockHeight_single_latch 0 ⟨"v2", 50⟩
        [.event (headerEvent 50), .result none, .result none, .launched 1 none, .ack,
          .upgradeInfo ⟨"v3", 50⟩]).2.2.2.2 rfl⟩⟩

end Poktd
